import Mathlib

set_option maxRecDepth 8000

/-!
Verification development for the `uac-analyzer` repository.

The Python sources under `src/uac_analyzer/` are shallowly embedded below:
pure functions become Lean functions, the cursor-style parser state becomes
explicit threading of the remaining token list, Python `int` becomes `Nat`
(all parsed values are non-negative), Python `None`-able fields become
`Option`, and the one statement that can raise (`parser.py` line 204,
`self._parse_field(content, "bcdUSB").split()[0]`) is modelled with `Except`.
Python `set` objects are modelled as lists used only through membership.
Rendering-only data (node name strings, path description strings, the
`entity` back-references on topology nodes) is omitted from the topology
embedding; every field that any analysed behaviour can observe is kept.
-/

/-! ### Character and string primitives (Python `str` helpers) -/

/-- Python whitespace for `str.strip` / `str.split`. -/
def isWs (c : Char) : Bool :=
  c = ' ' || c = '\t' || c = '\n' || c = '\r' || c = '\x0b' || c = '\x0c'

/-- Python regex word character (`\w`, ASCII range as produced by lsusb). -/
def isWordChar (c : Char) : Bool := c.isAlphanum || c = '_'

/-- Hexadecimal digit as in the character class `[0-9a-fA-F]`. -/
def isHexCh (c : Char) : Bool :=
  c.isDigit || ('a' ≤ c && c ≤ 'f') || ('A' ≤ c && c ≤ 'F')

/-- Numeric value of one hexadecimal digit. -/
def hexVal (c : Char) : Nat :=
  if c.isDigit then c.toNat - '0'.toNat
  else if 'a' ≤ c && c ≤ 'f' then c.toNat - 'a'.toNat + 10
  else if 'A' ≤ c && c ≤ 'F' then c.toNat - 'A'.toNat + 10
  else 0

/-- Decimal digit run to a number (Python `int(s)` on a digit string). -/
def digitsToNat (l : List Char) : Nat :=
  l.foldl (fun acc c => acc * 10 + (c.toNat - '0'.toNat)) 0

/-- Hexadecimal digit run to a number (Python `int(s, 16)`). -/
def hexToNat (l : List Char) : Nat :=
  l.foldl (fun acc c => acc * 16 + hexVal c) 0

/-- Python `str.strip()` on a character list. -/
def stripChars (l : List Char) : List Char :=
  ((l.dropWhile isWs).reverse.dropWhile isWs).reverse

/-- Python `str.splitlines()` (accumulator is kept reversed). -/
def splitLinesAux : List Char → List Char → List (List Char)
  | [], cur => if cur.isEmpty then [] else [cur.reverse]
  | '\r' :: '\n' :: rest, cur => cur.reverse :: splitLinesAux rest []
  | '\r' :: rest, cur => cur.reverse :: splitLinesAux rest []
  | '\n' :: rest, cur => cur.reverse :: splitLinesAux rest []
  | c :: rest, cur => splitLinesAux rest (c :: cur)

/-- Python `str.split()` with no argument: split on whitespace runs, no empty parts. -/
def pySplitWsAux : List Char → List Char → List (List Char)
  | [], cur => if cur.isEmpty then [] else [cur.reverse]
  | c :: rest, cur =>
    if isWs c then
      if cur.isEmpty then pySplitWsAux rest []
      else cur.reverse :: pySplitWsAux rest []
    else pySplitWsAux rest (c :: cur)

/-- Python `str.split()` with no argument. -/
def pySplitWs (l : List Char) : List (List Char) := pySplitWsAux l []

/-- Case-sensitive literal prefix test on character lists. -/
def leadMatch : List Char → List Char → Bool
  | [], _ => true
  | _, [] => false
  | a :: as, b :: bs => a = b && leadMatch as bs

/-- Case-insensitive literal prefix test (Python `re.IGNORECASE`). -/
def leadMatchCI : List Char → List Char → Bool
  | [], _ => true
  | _, [] => false
  | a :: as, b :: bs => a.toLower = b.toLower && leadMatchCI as bs

/-- Python `str.startswith` (structural, so that it computes by kernel
reduction, unlike the well-founded `String.startsWith` of the library). -/
def strStartsWith (s p : String) : Bool := leadMatch p.data s.data

/-- Python `content.split(sep)[-1]`: the segment after the last occurrence of `sep`
(the whole string when `sep` does not occur). -/
def afterLastSplit (sep : Char) (l : List Char) : List Char :=
  (l.reverse.takeWhile (fun c => c ≠ sep)).reverse

/-! ### Regex searches used by `parser.py`

Each `search...` function replays the corresponding `re.search` / `re.match`
call: leftmost match position, greedy runs, with the (degenerate) backtracking
behaviour of these particular patterns made explicit. -/

/-- `re.search(r'0x([0-9a-fA-F]+)', text)`: value of the first `0x`-prefixed
hexadecimal run. A failed attempt advances one character, which visits the
same candidate positions as the regex engine. -/
def searchHex0x : List Char → Option Nat
  | [] => none
  | c :: rest =>
    match c, rest with
    | '0', 'x' :: d :: rest2 =>
      if isHexCh d then some (hexToNat (d :: rest2.takeWhile isHexCh))
      else searchHex0x rest
    | _, _ => searchHex0x rest

/-- `re.search(r'0x[0-9a-fA-F]+\s+(.+)', content)`: text after the first
hexadecimal literal, used to pick up vendor/product labels. -/
def searchHexText : List Char → Option (List Char)
  | [] => none
  | c :: rest =>
    match c, rest with
    | '0', 'x' :: d :: rest2 =>
      if isHexCh d then
        let after := (d :: rest2).dropWhile isHexCh
        let ws := after.takeWhile isWs
        let v := after.dropWhile isWs
        if !ws.isEmpty && !v.isEmpty then some v
        else searchHexText rest
      else searchHexText rest
    | _, _ => searchHexText rest

/-- Length bound used for termination of the searchers below. -/
theorem dropWhileLenLe {α : Type} (p : α → Bool) (l : List α) :
    (l.dropWhile p).length ≤ l.length := by
  induction l with
  | nil => simp [List.dropWhile]
  | cons a l ih =>
    simp only [List.dropWhile]
    split
    · exact le_trans ih (Nat.le_succ _)
    · simp

/-- `re.search(r'(\d+)\.(\d+)', text)`: the first digit run followed by a dot
and another digit run, as a (major, minor) pair. A failed attempt advances one
character; every start position inside a failed digit run fails for the same
reason, so this visits exactly the positions the regex engine tries. -/
def searchBcd : List Char → Option (Nat × Nat)
  | [] => none
  | c :: rest =>
    if c.isDigit then
      let run := c :: rest.takeWhile Char.isDigit
      match rest.dropWhile Char.isDigit with
      | '.' :: d :: rest2 =>
        if d.isDigit then some (digitsToNat run, digitsToNat (d :: rest2.takeWhile Char.isDigit))
        else searchBcd rest
      | _ => searchBcd rest
    else searchBcd rest

/-- `re.search(r'\b(\d+)\b', text)`: first digit run delimited by word
boundaries. The flag records whether the previous character was a word
character; a failed attempt advances one character (equivalent to the engine
skipping the run, since interior starts fail the left boundary). -/
def searchIntWb : Bool → List Char → Option Nat
  | _, [] => none
  | prevW, c :: rest =>
    if c.isDigit && !prevW then
      let run := c :: rest.takeWhile Char.isDigit
      match rest.dropWhile Char.isDigit with
      | [] => some (digitsToNat run)
      | a :: _ =>
        if !isWordChar a then some (digitsToNat run) else searchIntWb (isWordChar c) rest
    else searchIntWb (isWordChar c) rest

/-- `re.search(rf'{field}\s+(.+)', line, re.IGNORECASE)`: capture after the
field name and at least one whitespace character. -/
def searchFieldCI (field : List Char) : List Char → Option (List Char)
  | [] => none
  | l@(_ :: rest) =>
    if leadMatchCI field l then
      let after := l.drop field.length
      let ws := after.takeWhile isWs
      let v := after.dropWhile isWs
      if !ws.isEmpty && !v.isEmpty then some v
      else searchFieldCI field rest
    else searchFieldCI field rest

/-- `re.search(rf'{name}\s+\d+\s+(.+)', content)`: capture the label after a
string-index field such as `iProduct  2 Some Name`. -/
def searchNameNumText (name : List Char) : List Char → Option (List Char)
  | [] => none
  | l@(_ :: rest) =>
    if leadMatch name l then
      let a1 := l.drop name.length
      let ws1 := a1.takeWhile isWs
      let b1 := a1.dropWhile isWs
      let ds := b1.takeWhile Char.isDigit
      let b2 := b1.dropWhile Char.isDigit
      let ws2 := b2.takeWhile isWs
      let b3 := b2.dropWhile isWs
      if !ws1.isEmpty && !ds.isEmpty && !ws2.isEmpty && !b3.isEmpty then some b3
      else searchNameNumText name rest
    else searchNameNumText name rest

/-- `re.search(r'baInterfaceNr\(\d+\)\s+(\d+)', content)`: the interface
number after an indexed `baInterfaceNr(k)` field. -/
def searchIdxNum (pre : List Char) : List Char → Option Nat
  | [] => none
  | l@(_ :: rest) =>
    if leadMatch pre l then
      let a := l.drop pre.length
      let ds := a.takeWhile Char.isDigit
      let b := a.dropWhile Char.isDigit
      match b with
      | ')' :: b2 =>
        let ws := b2.takeWhile isWs
        let b3 := b2.dropWhile isWs
        let ds2 := b3.takeWhile Char.isDigit
        if !ds.isEmpty && !ws.isEmpty && !ds2.isEmpty then some (digitsToNat ds2)
        else searchIdxNum pre rest
      | _ => searchIdxNum pre rest
    else searchIdxNum pre rest

/-- `re.match(rf'{pre}\s*\d+{cls}', content)`: anchored test for indexed field
headers such as `bmaControls( 0)`, `baSourceID( 1)` or `tSamFreq[ 0]`.
`pre` includes the opening bracket. -/
def matchIndexed (pre : List Char) (cls : Char) (content : List Char) : Bool :=
  if leadMatch pre content then
    let a := content.drop pre.length
    let b := a.dropWhile isWs
    let ds := b.takeWhile Char.isDigit
    let b2 := b.dropWhile Char.isDigit
    !ds.isEmpty && b2.headD ' ' = cls
  else false

/-! ### Field value decoders (`LsusbParser._parse_*_value` methods) -/

/-- `LsusbParser._parse_hex_value`. -/
def parseHexValue (text : String) : Nat :=
  let t := stripChars text.data
  match searchHex0x t with
  | some v => v
  | none =>
    match pySplitWs t with
    | _ :: p1 :: _ => if !p1.isEmpty && p1.all isHexCh then hexToNat p1 else 0
    | _ => 0

/-- `LsusbParser._parse_bcd_value`: version string `major.minor` packed as
`(major <<< 8) ||| minor`. -/
def parseBcdValue (text : String) : Nat :=
  match searchBcd text.data with
  | some p => (p.1 <<< 8) ||| p.2
  | none => 0

/-- `LsusbParser._parse_int_value`. -/
def parseIntValue (text : String) : Nat :=
  (searchIntWb false text.data).getD 0

/-- `LsusbParser._parse_field`: value text after a field name, stripped;
empty when the pattern does not match. -/
def parseField (line : String) (field : String) : String :=
  match searchFieldCI field.data line.data with
  | some v => String.mk (stripChars v)
  | none => ""

/-- Convenience wrapper: result of `searchNameNumText`, stripped, as an
optional string. -/
def nameNumText (name : String) (content : String) : Option String :=
  (searchNameNumText name.data content.data).map (fun v => String.mk (stripChars v))

/-! ### Data model (`model.py`) -/

/-- `model.UACVersion`. -/
inductive UACVersion
  | UAC_1_0
  | UAC_2_0
  | UAC_3_0
  | UNKNOWN
deriving DecidableEq, Repr

/-- `model.SyncType`. -/
inductive SyncType
  | NONE
  | ASYNC
  | ADAPTIVE
  | SYNC
deriving DecidableEq, Repr

/-- `model.UsageType`. -/
inductive UsageType
  | DATA
  | FEEDBACK
  | IMPLICIT_FEEDBACK
deriving DecidableEq, Repr

/-- `model.DeviceDescriptor`. -/
structure DeviceDescriptor where
  vendor_id : Nat := 0
  product_id : Nat := 0
  bcd_device : Nat := 0
  manufacturer : String := ""
  product : String := ""
  serial_number : String := ""
  device_class : Nat := 0
  device_subclass : Nat := 0
  device_protocol : Nat := 0
  max_packet_size_0 : Nat := 0
  num_configurations : Nat := 0
  usb_version : String := ""
deriving DecidableEq, Repr

/-- `model.EndpointDescriptor` (audio extensions included). -/
structure EndpointDescriptor where
  address : Nat := 0
  direction : String := ""
  transfer_type : String := ""
  sync_type : SyncType := SyncType.NONE
  usage_type : UsageType := UsageType.DATA
  max_packet_size : Nat := 0
  interval : Nat := 0
  refresh : Nat := 0
  synch_address : Nat := 0
  lock_delay_units : Nat := 0
  lock_delay : Nat := 0
  max_packets_only : Bool := false
deriving DecidableEq, Repr

/-- `model.InterfaceDescriptor`. -/
structure InterfaceDescriptor where
  interface_number : Nat := 0
  alternate_setting : Nat := 0
  num_endpoints : Nat := 0
  interface_class : Nat := 0
  interface_subclass : Nat := 0
  interface_protocol : Nat := 0
  interface_name : String := ""
  endpoints : List EndpointDescriptor := []
deriving DecidableEq, Repr

/-- `model.ConfigurationDescriptor`. -/
structure ConfigurationDescriptor where
  config_value : Nat := 0
  num_interfaces : Nat := 0
  config_name : String := ""
  attributes : Nat := 0
  max_power_ma : Nat := 0
  interfaces : List InterfaceDescriptor := []
deriving DecidableEq, Repr

/-- `model.AudioControlHeader`. -/
structure AudioControlHeader where
  uac_version : UACVersion := UACVersion.UNKNOWN
  bcd_adc : Nat := 0
  total_length : Nat := 0
  in_collection : Nat := 0
  interface_numbers : List Nat := []
  category : Nat := 0
  controls : Nat := 0
deriving DecidableEq, Repr

/-- `model.InputTerminal`. -/
structure InputTerminal where
  terminal_id : Nat := 0
  terminal_type : Nat := 0
  assoc_terminal : Nat := 0
  nr_channels : Nat := 0
  channel_config : Nat := 0
  channel_names : String := ""
  terminal_name : String := ""
  clock_source_id : Nat := 0
  controls : Nat := 0
deriving DecidableEq, Repr

/-- `model.InputTerminal.is_usb_streaming`. -/
def InputTerminal.is_usb_streaming (t : InputTerminal) : Bool :=
  t.terminal_type == 0x0101

/-- `model.OutputTerminal`. -/
structure OutputTerminal where
  terminal_id : Nat := 0
  terminal_type : Nat := 0
  assoc_terminal : Nat := 0
  source_id : Nat := 0
  terminal_name : String := ""
  clock_source_id : Nat := 0
  controls : Nat := 0
deriving DecidableEq, Repr

/-- `model.OutputTerminal.is_usb_streaming`. -/
def OutputTerminal.is_usb_streaming (t : OutputTerminal) : Bool :=
  t.terminal_type == 0x0101

/-- `model.FeatureUnit` (`controls` is the per-channel bitmask list,
index 0 is the master channel). -/
structure FeatureUnit where
  unit_id : Nat := 0
  source_id : Nat := 0
  nr_channels : Nat := 0
  controls : List Nat := []
  unit_name : String := ""
deriving DecidableEq, Repr

/-- `model.MixerUnit` (the never-populated `controls` bytes field is
omitted: no parser branch assigns it). -/
structure MixerUnit where
  unit_id : Nat := 0
  nr_in_pins : Nat := 0
  source_ids : List Nat := []
  nr_channels : Nat := 0
  channel_config : Nat := 0
  channel_names : String := ""
  unit_name : String := ""
deriving DecidableEq, Repr

/-- `model.SelectorUnit`. -/
structure SelectorUnit where
  unit_id : Nat := 0
  nr_in_pins : Nat := 0
  source_ids : List Nat := []
  selector_name : String := ""
deriving DecidableEq, Repr

/-- `model.ProcessingUnit`. -/
structure ProcessingUnit where
  unit_id : Nat := 0
  process_type : Nat := 0
  nr_in_pins : Nat := 0
  source_ids : List Nat := []
  nr_channels : Nat := 0
  channel_config : Nat := 0
  channel_names : String := ""
  controls : Nat := 0
  unit_name : String := ""
deriving DecidableEq, Repr

/-- `model.ExtensionUnit`. -/
structure ExtensionUnit where
  unit_id : Nat := 0
  extension_code : Nat := 0
  nr_in_pins : Nat := 0
  source_ids : List Nat := []
  nr_channels : Nat := 0
  channel_config : Nat := 0
  channel_names : String := ""
  controls : Nat := 0
  unit_name : String := ""
deriving DecidableEq, Repr

/-- `model.ClockSource` (UAC 2.0). -/
structure ClockSource where
  clock_id : Nat := 0
  attributes : Nat := 0
  controls : Nat := 0
  assoc_terminal : Nat := 0
  clock_source_name : String := ""
deriving DecidableEq, Repr

/-- `model.ClockSelector` (UAC 2.0). -/
structure ClockSelector where
  clock_id : Nat := 0
  nr_in_pins : Nat := 0
  clock_pin_ids : List Nat := []
  controls : Nat := 0
  clock_selector_name : String := ""
deriving DecidableEq, Repr

/-- `model.ClockMultiplier` (UAC 2.0). -/
structure ClockMultiplier where
  clock_id : Nat := 0
  clock_source_id : Nat := 0
  controls : Nat := 0
  clock_multiplier_name : String := ""
deriving DecidableEq, Repr

/-- `model.FormatTypeDescriptor`. -/
structure FormatTypeDescriptor where
  format_type : Nat := 0
  nr_channels : Nat := 0
  subframe_size : Nat := 0
  bit_resolution : Nat := 0
  sample_frequencies : List Nat := []
  freq_min : Nat := 0
  freq_max : Nat := 0
deriving DecidableEq, Repr

/-- `model.AudioStreamingInterface`. The dynamic `_nr_channels` attribute that
`parser._parse_as_general` sets on the Python object (and
`parser._parse_as_format_type` reads back with `hasattr`) is modelled by the
optional field `nr_channels_temp` (`none` = attribute never set). -/
structure AudioStreamingInterface where
  interface_number : Nat := 0
  alternate_setting : Nat := 0
  terminal_link : Nat := 0
  delay : Nat := 0
  format_tag : Nat := 0
  controls : Nat := 0
  clock_source_id : Nat := 0
  bm_formats : Nat := 0
  format : Option FormatTypeDescriptor := none
  endpoint : Option EndpointDescriptor := none
  nr_channels_temp : Option Nat := none
deriving DecidableEq, Repr

/-- `model.AlternateSetting`. -/
structure AlternateSetting where
  interface_number : Nat := 0
  alternate_setting : Nat := 0
  streaming_interface : Option AudioStreamingInterface := none
  format : Option FormatTypeDescriptor := none
  endpoint : Option EndpointDescriptor := none
deriving DecidableEq, Repr

/-- `model.AudioControlInterface`. -/
structure AudioControlInterface where
  header : Option AudioControlHeader := none
  input_terminals : List InputTerminal := []
  output_terminals : List OutputTerminal := []
  feature_units : List FeatureUnit := []
  mixer_units : List MixerUnit := []
  selector_units : List SelectorUnit := []
  processing_units : List ProcessingUnit := []
  extension_units : List ExtensionUnit := []
  clock_sources : List ClockSource := []
  clock_selectors : List ClockSelector := []
  clock_multipliers : List ClockMultiplier := []
deriving DecidableEq, Repr

/-- `model.USBAudioDevice`. -/
structure USBAudioDevice where
  device : DeviceDescriptor := {}
  configuration : Option ConfigurationDescriptor := none
  audio_control : Option AudioControlInterface := none
  streaming_interfaces : List AudioStreamingInterface := []
  alternate_settings : List AlternateSetting := []
deriving DecidableEq, Repr

/-! ### Line tokenizer (`parser.LsusbLine`, `LsusbParser._tokenize`) -/

/-- `parser.LsusbLine`: indentation depth and stripped content of one
non-blank line (the unused `line_number` / `raw` fields are omitted). -/
structure LsusbLine where
  indent : Nat
  content : String
deriving DecidableEq, Repr

/-- `LsusbParser._tokenize`: split into lines, drop blank lines, record the
leading-whitespace count and the stripped content. -/
def tokenize (text : String) : List LsusbLine :=
  (splitLinesAux text.data []).filterMap (fun raw =>
    let content := stripChars raw
    if content.isEmpty then none
    else some { indent := (raw.takeWhile isWs).length, content := String.mk content })

/-! ### Descriptor subtype constants (`LsusbParser` class attributes) -/

def AC_HEADER : Nat := 0x01
def AC_INPUT_TERMINAL : Nat := 0x02
def AC_OUTPUT_TERMINAL : Nat := 0x03
def AC_MIXER_UNIT : Nat := 0x04
def AC_SELECTOR_UNIT : Nat := 0x05
def AC_FEATURE_UNIT : Nat := 0x06
def AC_PROCESSING_UNIT : Nat := 0x07
def AC_EXTENSION_UNIT : Nat := 0x08
def AC_CLOCK_SOURCE : Nat := 0x0A
def AC_CLOCK_SELECTOR : Nat := 0x0B
def AC_CLOCK_MULTIPLIER : Nat := 0x0C
def AS_GENERAL : Nat := 0x01
def AS_FORMAT_TYPE : Nat := 0x02

/-! ### Generic section loops

Every `while self._current() and self._current().indent > start_indent`
field loop in `parser.py` has the same shape: process the current line with
the if/elif chain of the enclosing method, advance, stop at the first line
whose indent is `≤ start_indent` (or at end of input). `parseFields` is that
shared loop; each descriptor gets its own `step` function mirroring its
if/elif chain. -/

/-- The shared field-table loop of the leaf descriptor parsers. -/
def parseFields {α : Type} (i : Nat) (step : α → String → α) : α → List LsusbLine → α × List LsusbLine
  | a, [] => (a, [])
  | a, l :: ls => if i < l.indent then parseFields i step (step a l.content) ls else (a, l :: ls)

/-- The remaining lines after a field loop form a suffix. -/
theorem parseFields_rest_length {α : Type} (i : Nat) (step : α → String → α) (a : α)
    (ls : List LsusbLine) : (parseFields i step a ls).2.length ≤ ls.length := by
  induction ls generalizing a with
  | nil => simp [parseFields]
  | cons l ls ih =>
    simp only [parseFields]
    split
    · exact le_trans (ih _) (Nat.le_succ _)
    · simp

/-- The non-consuming lookahead in `_parse_audio_control_descriptor` /
`_parse_audio_streaming_descriptor`: advance over body lines until a
`bDescriptorSubtype` line is found (left in place, subtype decoded) or the
body ends (subtype 0). -/
def scanSubtype (i : Nat) : List LsusbLine → Nat × List LsusbLine
  | [] => (0, [])
  | l :: ls =>
    if i < l.indent then
      if strStartsWith l.content "bDescriptorSubtype" then (parseIntValue l.content, l :: ls)
      else scanSubtype i ls
    else (0, l :: ls)

theorem scanSubtype_rest_length (i : Nat) (ls : List LsusbLine) :
    (scanSubtype i ls).2.length ≤ ls.length := by
  induction ls with
  | nil => simp [scanSubtype]
  | cons l ls ih =>
    simp only [scanSubtype]
    split
    · split
      · simp
      · exact le_trans ih (Nat.le_succ _)
    · simp

/-- The `# Skip unknown descriptor` loops: consume the rest of the body. -/
def skipBlock (i : Nat) : List LsusbLine → List LsusbLine
  | [] => []
  | l :: ls => if i < l.indent then skipBlock i ls else l :: ls

theorem skipBlock_rest_length (i : Nat) (ls : List LsusbLine) :
    (skipBlock i ls).length ≤ ls.length := by
  induction ls with
  | nil => simp [skipBlock]
  | cons l ls ih =>
    simp only [skipBlock]
    split
    · exact le_trans ih (Nat.le_succ _)
    · simp

/-! ### Field steps of the AudioControl leaf descriptors -/

/-- Classification of `bcdADC` in `_parse_ac_header`: packed value `≥ 0x0200`
is UAC 2.0, anything below is UAC 1.0. -/
def classifyBcdAdc (v : Nat) : UACVersion :=
  if 0x0200 ≤ v then UACVersion.UAC_2_0 else UACVersion.UAC_1_0

/-- if/elif chain of `_parse_ac_header`. -/
def stepAcHeader (h : AudioControlHeader) (content : String) : AudioControlHeader :=
  if strStartsWith content "bcdADC" then
    let v := parseBcdValue content
    { h with bcd_adc := v, uac_version := classifyBcdAdc v }
  else if strStartsWith content "wTotalLength" then { h with total_length := parseIntValue content }
  else if strStartsWith content "bInCollection" then { h with in_collection := parseIntValue content }
  else if strStartsWith content "baInterfaceNr" then
    match searchIdxNum "baInterfaceNr(".data content.data with
    | some n => { h with interface_numbers := h.interface_numbers ++ [n] }
    | none => h
  else if strStartsWith content "bCategory" then { h with category := parseHexValue content }
  else if strStartsWith content "bmControls" then { h with controls := parseHexValue content }
  else h

/-- if/elif chain of `_parse_input_terminal`. -/
def stepInputTerminal (t : InputTerminal) (content : String) : InputTerminal :=
  if strStartsWith content "bTerminalID" then { t with terminal_id := parseIntValue content }
  else if strStartsWith content "wTerminalType" then { t with terminal_type := parseHexValue content }
  else if strStartsWith content "bAssocTerminal" then { t with assoc_terminal := parseIntValue content }
  else if strStartsWith content "bNrChannels" then { t with nr_channels := parseIntValue content }
  else if strStartsWith content "wChannelConfig" then { t with channel_config := parseHexValue content }
  else if strStartsWith content "iChannelNames" then
    match nameNumText "iChannelNames" content with
    | some s => { t with channel_names := s }
    | none => t
  else if strStartsWith content "iTerminal" then
    match nameNumText "iTerminal" content with
    | some s => { t with terminal_name := s }
    | none => t
  else if strStartsWith content "bCSourceID" then { t with clock_source_id := parseIntValue content }
  else if strStartsWith content "bmControls" then { t with controls := parseHexValue content }
  else t

/-- if/elif chain of `_parse_output_terminal`. -/
def stepOutputTerminal (t : OutputTerminal) (content : String) : OutputTerminal :=
  if strStartsWith content "bTerminalID" then { t with terminal_id := parseIntValue content }
  else if strStartsWith content "wTerminalType" then { t with terminal_type := parseHexValue content }
  else if strStartsWith content "bAssocTerminal" then { t with assoc_terminal := parseIntValue content }
  else if strStartsWith content "bSourceID" then { t with source_id := parseIntValue content }
  else if strStartsWith content "iTerminal" then
    match nameNumText "iTerminal" content with
    | some s => { t with terminal_name := s }
    | none => t
  else if strStartsWith content "bCSourceID" then { t with clock_source_id := parseIntValue content }
  else if strStartsWith content "bmControls" then { t with controls := parseHexValue content }
  else t

/-- if/elif chain of `_parse_feature_unit` (the `bControlSize` branch is a
`pass` in the source). -/
def stepFeatureUnit (u : FeatureUnit) (content : String) : FeatureUnit :=
  if strStartsWith content "bUnitID" then { u with unit_id := parseIntValue content }
  else if strStartsWith content "bSourceID" then { u with source_id := parseIntValue content }
  else if strStartsWith content "bControlSize" then u
  else if matchIndexed "bmaControls(".data ')' content.data then
    { u with controls := u.controls ++ [parseHexValue content] }
  else if strStartsWith content "iFeature" then
    match nameNumText "iFeature" content with
    | some s => { u with unit_name := s }
    | none => u
  else u

/-- if/elif chain of `_parse_mixer_unit`. -/
def stepMixerUnit (u : MixerUnit) (content : String) : MixerUnit :=
  if strStartsWith content "bUnitID" then { u with unit_id := parseIntValue content }
  else if strStartsWith content "bNrInPins" then { u with nr_in_pins := parseIntValue content }
  else if matchIndexed "baSourceID(".data ')' content.data then
    { u with source_ids := u.source_ids ++ [parseIntValue (String.mk (afterLastSplit ')' content.data))] }
  else if strStartsWith content "bNrChannels" then { u with nr_channels := parseIntValue content }
  else if strStartsWith content "wChannelConfig" then { u with channel_config := parseHexValue content }
  else if strStartsWith content "iChannelNames" then
    match nameNumText "iChannelNames" content with
    | some s => { u with channel_names := s }
    | none => u
  else if strStartsWith content "iMixer" then
    match nameNumText "iMixer" content with
    | some s => { u with unit_name := s }
    | none => u
  else u

/-- if/elif chain of `_parse_selector_unit`. -/
def stepSelectorUnit (u : SelectorUnit) (content : String) : SelectorUnit :=
  if strStartsWith content "bUnitID" then { u with unit_id := parseIntValue content }
  else if strStartsWith content "bNrInPins" then { u with nr_in_pins := parseIntValue content }
  else if matchIndexed "baSourceID(".data ')' content.data then
    { u with source_ids := u.source_ids ++ [parseIntValue (String.mk (afterLastSplit ')' content.data))] }
  else if strStartsWith content "iSelector" then
    match nameNumText "iSelector" content with
    | some s => { u with selector_name := s }
    | none => u
  else u

/-- if/elif chain of `_parse_processing_unit`. -/
def stepProcessingUnit (u : ProcessingUnit) (content : String) : ProcessingUnit :=
  if strStartsWith content "bUnitID" then { u with unit_id := parseIntValue content }
  else if strStartsWith content "wProcessType" then { u with process_type := parseHexValue content }
  else if strStartsWith content "bNrInPins" then { u with nr_in_pins := parseIntValue content }
  else if matchIndexed "baSourceID(".data ')' content.data then
    { u with source_ids := u.source_ids ++ [parseIntValue (String.mk (afterLastSplit ')' content.data))] }
  else if strStartsWith content "bNrChannels" then { u with nr_channels := parseIntValue content }
  else if strStartsWith content "wChannelConfig" then { u with channel_config := parseHexValue content }
  else if strStartsWith content "iChannelNames" then
    match nameNumText "iChannelNames" content with
    | some s => { u with channel_names := s }
    | none => u
  else if strStartsWith content "bmControls" then { u with controls := parseHexValue content }
  else if strStartsWith content "iProcessing" then
    match nameNumText "iProcessing" content with
    | some s => { u with unit_name := s }
    | none => u
  else u

/-- if/elif chain of `_parse_extension_unit`. -/
def stepExtensionUnit (u : ExtensionUnit) (content : String) : ExtensionUnit :=
  if strStartsWith content "bUnitID" then { u with unit_id := parseIntValue content }
  else if strStartsWith content "wExtensionCode" then { u with extension_code := parseHexValue content }
  else if strStartsWith content "bNrInPins" then { u with nr_in_pins := parseIntValue content }
  else if matchIndexed "baSourceID(".data ')' content.data then
    { u with source_ids := u.source_ids ++ [parseIntValue (String.mk (afterLastSplit ')' content.data))] }
  else if strStartsWith content "bNrChannels" then { u with nr_channels := parseIntValue content }
  else if strStartsWith content "wChannelConfig" then { u with channel_config := parseHexValue content }
  else if strStartsWith content "iChannelNames" then
    match nameNumText "iChannelNames" content with
    | some s => { u with channel_names := s }
    | none => u
  else if strStartsWith content "bmControls" then { u with controls := parseHexValue content }
  else if strStartsWith content "iExtension" then
    match nameNumText "iExtension" content with
    | some s => { u with unit_name := s }
    | none => u
  else u

/-- if/elif chain of `_parse_clock_source`. -/
def stepClockSource (c : ClockSource) (content : String) : ClockSource :=
  if strStartsWith content "bClockID" then { c with clock_id := parseIntValue content }
  else if strStartsWith content "bmAttributes" then { c with attributes := parseHexValue content }
  else if strStartsWith content "bmControls" then { c with controls := parseHexValue content }
  else if strStartsWith content "bAssocTerminal" then { c with assoc_terminal := parseIntValue content }
  else if strStartsWith content "iClockSource" then
    match nameNumText "iClockSource" content with
    | some s => { c with clock_source_name := s }
    | none => c
  else c

/-- if/elif chain of `_parse_clock_selector`. -/
def stepClockSelector (c : ClockSelector) (content : String) : ClockSelector :=
  if strStartsWith content "bClockID" then { c with clock_id := parseIntValue content }
  else if strStartsWith content "bNrInPins" then { c with nr_in_pins := parseIntValue content }
  else if matchIndexed "baCSourceID(".data ')' content.data then
    { c with clock_pin_ids := c.clock_pin_ids ++ [parseIntValue (String.mk (afterLastSplit ')' content.data))] }
  else if strStartsWith content "bmControls" then { c with controls := parseHexValue content }
  else if strStartsWith content "iClockSelector" then
    match nameNumText "iClockSelector" content with
    | some s => { c with clock_selector_name := s }
    | none => c
  else c

/-- if/elif chain of `_parse_clock_multiplier`. -/
def stepClockMultiplier (c : ClockMultiplier) (content : String) : ClockMultiplier :=
  if strStartsWith content "bClockID" then { c with clock_id := parseIntValue content }
  else if strStartsWith content "bCSourceID" then { c with clock_source_id := parseIntValue content }
  else if strStartsWith content "bmControls" then { c with controls := parseHexValue content }
  else if strStartsWith content "iClockMultiplier" then
    match nameNumText "iClockMultiplier" content with
    | some s => { c with clock_multiplier_name := s }
    | none => c
  else c

/-- if/elif chain of `_parse_as_general` (`bFormatType` is a `pass`;
`bNrChannels` stores the dynamic `_nr_channels` attribute). -/
def stepAsGeneral (s : AudioStreamingInterface) (content : String) : AudioStreamingInterface :=
  if strStartsWith content "bTerminalLink" then { s with terminal_link := parseIntValue content }
  else if strStartsWith content "bDelay" then { s with delay := parseIntValue content }
  else if strStartsWith content "wFormatTag" then { s with format_tag := parseHexValue content }
  else if strStartsWith content "bmControls" then { s with controls := parseHexValue content }
  else if strStartsWith content "bFormatType" then s
  else if strStartsWith content "bNrChannels" then { s with nr_channels_temp := some (parseIntValue content) }
  else if strStartsWith content "bClockSourceID" then { s with clock_source_id := parseIntValue content }
  else s

/-- if/elif chain of `_parse_as_format_type` (`bSamFreqType` is a `pass`). -/
def stepFormatType (f : FormatTypeDescriptor) (content : String) : FormatTypeDescriptor :=
  if strStartsWith content "bFormatType" then { f with format_type := parseIntValue content }
  else if strStartsWith content "bNrChannels" then { f with nr_channels := parseIntValue content }
  else if strStartsWith content "bSubframeSize" then { f with subframe_size := parseIntValue content }
  else if strStartsWith content "bBitResolution" then { f with bit_resolution := parseIntValue content }
  else if strStartsWith content "bSubslotSize" then { f with subframe_size := parseIntValue content }
  else if strStartsWith content "bSamFreqType" then f
  else if matchIndexed "tSamFreq[".data ']' content.data then
    { f with sample_frequencies := f.sample_frequencies ++ [parseIntValue (String.mk (afterLastSplit ']' content.data))] }
  else if strStartsWith content "tLowerSamFreq" then { f with freq_min := parseIntValue content }
  else if strStartsWith content "tUpperSamFreq" then { f with freq_max := parseIntValue content }
  else f

/-! ### Endpoint descriptors (`_parse_endpoint_descriptor`,
`_parse_audio_endpoint_descriptor`) -/

/-- `transfer_types[attrs & 0x03]` in `_parse_endpoint_descriptor`. -/
def transferTypeName (n : Nat) : String :=
  match n with
  | 0 => "Control"
  | 1 => "Isochronous"
  | 2 => "Bulk"
  | _ => "Interrupt"

/-- `sync_types[(attrs >> 2) & 0x03]`. -/
def syncTypeOf (n : Nat) : SyncType :=
  match n with
  | 0 => SyncType.NONE
  | 1 => SyncType.ASYNC
  | 2 => SyncType.ADAPTIVE
  | _ => SyncType.SYNC

/-- `usage_types[(attrs >> 4) & 0x03]`. -/
def usageTypeOf (n : Nat) : UsageType :=
  match n with
  | 0 => UsageType.DATA
  | 1 => UsageType.FEEDBACK
  | 2 => UsageType.IMPLICIT_FEEDBACK
  | _ => UsageType.DATA

/-- Field branches of `_parse_endpoint_descriptor` (the nested
`AudioControl Endpoint Descriptor:` branch lives in the loop below; its
guard is disjoint from every field guard here, so the dispatch order is
unchanged observationally). -/
def stepEndpoint (ep : EndpointDescriptor) (content : String) : EndpointDescriptor :=
  if strStartsWith content "bEndpointAddress" then
    let a := parseHexValue content
    { ep with address := a, direction := if a &&& 0x80 ≠ 0 then "IN" else "OUT" }
  else if strStartsWith content "bmAttributes" then
    let attrs := parseIntValue content
    let tt := transferTypeName (attrs &&& 0x03)
    if tt = "Isochronous" then
      { ep with transfer_type := tt,
                sync_type := syncTypeOf ((attrs >>> 2) &&& 0x03),
                usage_type := usageTypeOf ((attrs >>> 4) &&& 0x03) }
    else { ep with transfer_type := tt }
  else if strStartsWith content "wMaxPacketSize" then
    match searchHex0x content.data with
    | some v => { ep with max_packet_size := v &&& 0x7FF }
    | none => ep
  else if strStartsWith content "bInterval" then { ep with interval := parseIntValue content }
  else if strStartsWith content "bRefresh" then { ep with refresh := parseIntValue content }
  else if strStartsWith content "bSynchAddress" then { ep with synch_address := parseHexValue content }
  else ep

/-- if/elif chain of `_parse_audio_endpoint_descriptor`. -/
def stepAudioEndpoint (ep : EndpointDescriptor) (content : String) : EndpointDescriptor :=
  if strStartsWith content "bmAttributes" then
    let attrs := parseHexValue content
    { ep with max_packets_only := attrs &&& 0x80 ≠ 0 }
  else if strStartsWith content "bLockDelayUnits" then { ep with lock_delay_units := parseIntValue content }
  else if strStartsWith content "wLockDelay" then { ep with lock_delay := parseIntValue content }
  else ep

/-- Body loop of `_parse_endpoint_descriptor`. The `fuel` argument bounds the
number of loop iterations (the wrapper passes the number of remaining lines,
which always suffices because every iteration consumes at least one line);
the fuel-exhausted arm is unreachable from the wrapper. -/
def parseEndpointLoop (i : Nat) : Nat → EndpointDescriptor → List LsusbLine → EndpointDescriptor × List LsusbLine
  | _, ep, [] => (ep, [])
  | 0, ep, ls => (ep, ls)
  | fuel + 1, ep, l :: ls =>
    if i < l.indent then
      if strStartsWith l.content "AudioControl Endpoint Descriptor:" then
        let p := parseFields l.indent stepAudioEndpoint ep ls
        parseEndpointLoop i fuel p.1 p.2
      else parseEndpointLoop i fuel (stepEndpoint ep l.content) ls
    else (ep, l :: ls)

/-- `_parse_endpoint_descriptor`: the first line is the section header. -/
def parseEndpointDescriptor : List LsusbLine → EndpointDescriptor × List LsusbLine
  | [] => ({}, [])
  | l :: ls => parseEndpointLoop l.indent ls.length {} ls

theorem parseEndpointLoop_rest_length (i : Nat) (fuel : Nat) (ep : EndpointDescriptor)
    (ls : List LsusbLine) : (parseEndpointLoop i fuel ep ls).2.length ≤ ls.length := by
  induction fuel generalizing ep ls with
  | zero => cases ls <;> simp [parseEndpointLoop]
  | succ fuel ih =>
    cases ls with
    | nil => simp [parseEndpointLoop]
    | cons l ls =>
      simp only [parseEndpointLoop]
      split
      · split
        · exact le_trans (ih _ _)
            (le_trans (parseFields_rest_length l.indent stepAudioEndpoint ep ls) (Nat.le_succ _))
        · exact le_trans (ih _ _) (Nat.le_succ _)
      · simp

theorem parseEndpointDescriptor_rest_length (l : LsusbLine) (ls : List LsusbLine) :
    (parseEndpointDescriptor (l :: ls)).2.length ≤ ls.length := by
  simpa [parseEndpointDescriptor] using parseEndpointLoop_rest_length l.indent ls.length {} ls

/-! ### AudioControl interface descriptors
(`_parse_audio_control_descriptor` and its per-subtype leaf methods) -/

/-- `_parse_ac_header`. -/
def parseAcHeaderBody (i : Nat) (ac : AudioControlInterface) (ls : List LsusbLine) :
    AudioControlInterface × List LsusbLine :=
  let p := parseFields i stepAcHeader {} ls
  ({ ac with header := some p.1 }, p.2)

/-- `_parse_input_terminal`. -/
def parseInputTerminalBody (i : Nat) (ac : AudioControlInterface) (ls : List LsusbLine) :
    AudioControlInterface × List LsusbLine :=
  let p := parseFields i stepInputTerminal {} ls
  ({ ac with input_terminals := ac.input_terminals ++ [p.1] }, p.2)

/-- `_parse_output_terminal`. -/
def parseOutputTerminalBody (i : Nat) (ac : AudioControlInterface) (ls : List LsusbLine) :
    AudioControlInterface × List LsusbLine :=
  let p := parseFields i stepOutputTerminal {} ls
  ({ ac with output_terminals := ac.output_terminals ++ [p.1] }, p.2)

/-- `_parse_feature_unit`. -/
def parseFeatureUnitBody (i : Nat) (ac : AudioControlInterface) (ls : List LsusbLine) :
    AudioControlInterface × List LsusbLine :=
  let p := parseFields i stepFeatureUnit {} ls
  ({ ac with feature_units := ac.feature_units ++ [p.1] }, p.2)

/-- `_parse_mixer_unit`. -/
def parseMixerUnitBody (i : Nat) (ac : AudioControlInterface) (ls : List LsusbLine) :
    AudioControlInterface × List LsusbLine :=
  let p := parseFields i stepMixerUnit {} ls
  ({ ac with mixer_units := ac.mixer_units ++ [p.1] }, p.2)

/-- `_parse_selector_unit`. -/
def parseSelectorUnitBody (i : Nat) (ac : AudioControlInterface) (ls : List LsusbLine) :
    AudioControlInterface × List LsusbLine :=
  let p := parseFields i stepSelectorUnit {} ls
  ({ ac with selector_units := ac.selector_units ++ [p.1] }, p.2)

/-- `_parse_processing_unit`. -/
def parseProcessingUnitBody (i : Nat) (ac : AudioControlInterface) (ls : List LsusbLine) :
    AudioControlInterface × List LsusbLine :=
  let p := parseFields i stepProcessingUnit {} ls
  ({ ac with processing_units := ac.processing_units ++ [p.1] }, p.2)

/-- `_parse_extension_unit`. -/
def parseExtensionUnitBody (i : Nat) (ac : AudioControlInterface) (ls : List LsusbLine) :
    AudioControlInterface × List LsusbLine :=
  let p := parseFields i stepExtensionUnit {} ls
  ({ ac with extension_units := ac.extension_units ++ [p.1] }, p.2)

/-- `_parse_clock_source`. -/
def parseClockSourceBody (i : Nat) (ac : AudioControlInterface) (ls : List LsusbLine) :
    AudioControlInterface × List LsusbLine :=
  let p := parseFields i stepClockSource {} ls
  ({ ac with clock_sources := ac.clock_sources ++ [p.1] }, p.2)

/-- `_parse_clock_selector`. -/
def parseClockSelectorBody (i : Nat) (ac : AudioControlInterface) (ls : List LsusbLine) :
    AudioControlInterface × List LsusbLine :=
  let p := parseFields i stepClockSelector {} ls
  ({ ac with clock_selectors := ac.clock_selectors ++ [p.1] }, p.2)

/-- `_parse_clock_multiplier`. -/
def parseClockMultiplierBody (i : Nat) (ac : AudioControlInterface) (ls : List LsusbLine) :
    AudioControlInterface × List LsusbLine :=
  let p := parseFields i stepClockMultiplier {} ls
  ({ ac with clock_multipliers := ac.clock_multipliers ++ [p.1] }, p.2)

/-- Subtype dispatch of `_parse_audio_control_descriptor` (the if/elif chain
on the looked-ahead `bDescriptorSubtype`; unknown subtypes skip the body). -/
def acDispatch (i : Nat) (st : Nat) (ac : AudioControlInterface) (r : List LsusbLine) :
    AudioControlInterface × List LsusbLine :=
  if st = AC_HEADER then parseAcHeaderBody i ac r
  else if st = AC_INPUT_TERMINAL then parseInputTerminalBody i ac r
  else if st = AC_OUTPUT_TERMINAL then parseOutputTerminalBody i ac r
  else if st = AC_FEATURE_UNIT then parseFeatureUnitBody i ac r
  else if st = AC_MIXER_UNIT then parseMixerUnitBody i ac r
  else if st = AC_SELECTOR_UNIT then parseSelectorUnitBody i ac r
  else if st = AC_PROCESSING_UNIT then parseProcessingUnitBody i ac r
  else if st = AC_EXTENSION_UNIT then parseExtensionUnitBody i ac r
  else if st = AC_CLOCK_SOURCE then parseClockSourceBody i ac r
  else if st = AC_CLOCK_SELECTOR then parseClockSelectorBody i ac r
  else if st = AC_CLOCK_MULTIPLIER then parseClockMultiplierBody i ac r
  else (ac, skipBlock i r)

/-- `_parse_audio_control_descriptor`: ensure the device has an
AudioControlInterface, scan the body for `bDescriptorSubtype`, then re-enter
the body with the subtype-specific field table (unknown subtypes skip the
body). The first line of the argument is the section header. -/
def parseAudioControlDescriptor (dev : USBAudioDevice) : List LsusbLine → USBAudioDevice × List LsusbLine
  | [] => ({ dev with audio_control := some (dev.audio_control.getD {}) }, [])
  | l :: ls =>
    let s := scanSubtype l.indent ls
    let p := acDispatch l.indent s.1 (dev.audio_control.getD {}) s.2
    ({ dev with audio_control := some p.1 }, p.2)

/-! ### AudioStreaming interface descriptors
(`_parse_audio_streaming_descriptor`, `_parse_as_general`,
`_parse_as_format_type`) -/

/-- `_parse_as_general`: a fresh streaming interface carrying the interface
number and alternate setting of the enclosing interface descriptor. -/
def parseAsGeneralBody (i : Nat) (dev : USBAudioDevice) (ifc : InterfaceDescriptor)
    (ls : List LsusbLine) : USBAudioDevice × List LsusbLine :=
  let p := parseFields i stepAsGeneral
    { interface_number := ifc.interface_number, alternate_setting := ifc.alternate_setting } ls
  ({ dev with streaming_interfaces := dev.streaming_interfaces ++ [p.1] }, p.2)

/-- Tail of `_parse_as_format_type`: attach the format to the most recent
streaming interface, copying the stashed UAC 2.0 channel count into the
format when the format itself has none. -/
def attachFormat (dev : USBAudioDevice) (fmt : FormatTypeDescriptor) : USBAudioDevice :=
  match dev.streaming_interfaces.getLast? with
  | none => dev
  | some s =>
    let fmt2 :=
      if fmt.nr_channels = 0 ∧ s.nr_channels_temp.isSome then
        { fmt with nr_channels := s.nr_channels_temp.getD 0 }
      else fmt
    { dev with streaming_interfaces :=
        dev.streaming_interfaces.dropLast ++ [{ s with format := some fmt2 }] }

/-- `_parse_as_format_type`. -/
def parseAsFormatBody (i : Nat) (dev : USBAudioDevice) (ls : List LsusbLine) :
    USBAudioDevice × List LsusbLine :=
  let p := parseFields i stepFormatType {} ls
  (attachFormat dev p.1, p.2)

/-- Subtype dispatch of `_parse_audio_streaming_descriptor`. -/
def asDispatch (i : Nat) (st : Nat) (dev : USBAudioDevice) (ifc : InterfaceDescriptor)
    (r : List LsusbLine) : USBAudioDevice × List LsusbLine :=
  if st = AS_GENERAL then parseAsGeneralBody i dev ifc r
  else if st = AS_FORMAT_TYPE then parseAsFormatBody i dev r
  else (dev, skipBlock i r)

/-- `_parse_audio_streaming_descriptor`: subtype lookahead then dispatch
(unknown subtypes skip the body). The first line is the section header. -/
def parseAudioStreamingDescriptor (dev : USBAudioDevice) (ifc : InterfaceDescriptor) :
    List LsusbLine → USBAudioDevice × List LsusbLine
  | [] => (dev, [])
  | l :: ls =>
    let s := scanSubtype l.indent ls
    asDispatch l.indent s.1 dev ifc s.2

theorem parseAcHeaderBody_rest_length (i : Nat) (ac : AudioControlInterface)
    (r : List LsusbLine) : (parseAcHeaderBody i ac r).2.length ≤ r.length :=
  parseFields_rest_length i stepAcHeader {} r

theorem parseInputTerminalBody_rest_length (i : Nat) (ac : AudioControlInterface)
    (r : List LsusbLine) : (parseInputTerminalBody i ac r).2.length ≤ r.length :=
  parseFields_rest_length i stepInputTerminal {} r

theorem parseOutputTerminalBody_rest_length (i : Nat) (ac : AudioControlInterface)
    (r : List LsusbLine) : (parseOutputTerminalBody i ac r).2.length ≤ r.length :=
  parseFields_rest_length i stepOutputTerminal {} r

theorem parseFeatureUnitBody_rest_length (i : Nat) (ac : AudioControlInterface)
    (r : List LsusbLine) : (parseFeatureUnitBody i ac r).2.length ≤ r.length :=
  parseFields_rest_length i stepFeatureUnit {} r

theorem parseMixerUnitBody_rest_length (i : Nat) (ac : AudioControlInterface)
    (r : List LsusbLine) : (parseMixerUnitBody i ac r).2.length ≤ r.length :=
  parseFields_rest_length i stepMixerUnit {} r

theorem parseSelectorUnitBody_rest_length (i : Nat) (ac : AudioControlInterface)
    (r : List LsusbLine) : (parseSelectorUnitBody i ac r).2.length ≤ r.length :=
  parseFields_rest_length i stepSelectorUnit {} r

theorem parseProcessingUnitBody_rest_length (i : Nat) (ac : AudioControlInterface)
    (r : List LsusbLine) : (parseProcessingUnitBody i ac r).2.length ≤ r.length :=
  parseFields_rest_length i stepProcessingUnit {} r

theorem parseExtensionUnitBody_rest_length (i : Nat) (ac : AudioControlInterface)
    (r : List LsusbLine) : (parseExtensionUnitBody i ac r).2.length ≤ r.length :=
  parseFields_rest_length i stepExtensionUnit {} r

theorem parseClockSourceBody_rest_length (i : Nat) (ac : AudioControlInterface)
    (r : List LsusbLine) : (parseClockSourceBody i ac r).2.length ≤ r.length :=
  parseFields_rest_length i stepClockSource {} r

theorem parseClockSelectorBody_rest_length (i : Nat) (ac : AudioControlInterface)
    (r : List LsusbLine) : (parseClockSelectorBody i ac r).2.length ≤ r.length :=
  parseFields_rest_length i stepClockSelector {} r

theorem parseClockMultiplierBody_rest_length (i : Nat) (ac : AudioControlInterface)
    (r : List LsusbLine) : (parseClockMultiplierBody i ac r).2.length ≤ r.length :=
  parseFields_rest_length i stepClockMultiplier {} r

set_option maxHeartbeats 1000000 in
theorem acDispatch_rest_length (i : Nat) (st : Nat) (ac : AudioControlInterface)
    (r : List LsusbLine) : (acDispatch i st ac r).2.length ≤ r.length := by
  simp only [acDispatch]
  repeat' split
  · exact parseAcHeaderBody_rest_length i ac r
  · exact parseInputTerminalBody_rest_length i ac r
  · exact parseOutputTerminalBody_rest_length i ac r
  · exact parseFeatureUnitBody_rest_length i ac r
  · exact parseMixerUnitBody_rest_length i ac r
  · exact parseSelectorUnitBody_rest_length i ac r
  · exact parseProcessingUnitBody_rest_length i ac r
  · exact parseExtensionUnitBody_rest_length i ac r
  · exact parseClockSourceBody_rest_length i ac r
  · exact parseClockSelectorBody_rest_length i ac r
  · exact parseClockMultiplierBody_rest_length i ac r
  · exact skipBlock_rest_length i r

theorem parseAsGeneralBody_rest_length (i : Nat) (dev : USBAudioDevice)
    (ifc : InterfaceDescriptor) (r : List LsusbLine) :
    (parseAsGeneralBody i dev ifc r).2.length ≤ r.length :=
  parseFields_rest_length i stepAsGeneral
    { interface_number := ifc.interface_number, alternate_setting := ifc.alternate_setting } r

theorem parseAsFormatBody_rest_length (i : Nat) (dev : USBAudioDevice)
    (r : List LsusbLine) : (parseAsFormatBody i dev r).2.length ≤ r.length :=
  parseFields_rest_length i stepFormatType {} r

set_option maxHeartbeats 1000000 in
theorem asDispatch_rest_length (i : Nat) (st : Nat) (dev : USBAudioDevice)
    (ifc : InterfaceDescriptor) (r : List LsusbLine) :
    (asDispatch i st dev ifc r).2.length ≤ r.length := by
  simp only [asDispatch]
  repeat' split
  · exact parseAsGeneralBody_rest_length i dev ifc r
  · exact parseAsFormatBody_rest_length i dev r
  · exact skipBlock_rest_length i r

theorem parseAudioControlDescriptor_rest_length (dev : USBAudioDevice) (l : LsusbLine)
    (ls : List LsusbLine) : (parseAudioControlDescriptor dev (l :: ls)).2.length ≤ ls.length :=
  le_trans
    (acDispatch_rest_length l.indent (scanSubtype l.indent ls).1 (dev.audio_control.getD {})
      (scanSubtype l.indent ls).2)
    (scanSubtype_rest_length l.indent ls)

theorem parseAudioStreamingDescriptor_rest_length (dev : USBAudioDevice)
    (ifc : InterfaceDescriptor) (l : LsusbLine) (ls : List LsusbLine) :
    (parseAudioStreamingDescriptor dev ifc (l :: ls)).2.length ≤ ls.length :=
  le_trans
    (asDispatch_rest_length l.indent (scanSubtype l.indent ls).1 dev ifc
      (scanSubtype l.indent ls).2)
    (scanSubtype_rest_length l.indent ls)

/-! ### Interface descriptors (`_parse_interface_descriptor`) -/

/-- Simple field branches of `_parse_interface_descriptor` (the three nested
section branches live in the loop below; their guards are disjoint from every
field guard here, so the dispatch order is unchanged observationally). -/
def stepInterface (ifc : InterfaceDescriptor) (content : String) : InterfaceDescriptor :=
  if strStartsWith content "bInterfaceNumber" then { ifc with interface_number := parseIntValue content }
  else if strStartsWith content "bAlternateSetting" then { ifc with alternate_setting := parseIntValue content }
  else if strStartsWith content "bNumEndpoints" then { ifc with num_endpoints := parseIntValue content }
  else if strStartsWith content "bInterfaceClass" then { ifc with interface_class := parseIntValue content }
  else if strStartsWith content "bInterfaceSubClass" then { ifc with interface_subclass := parseIntValue content }
  else if strStartsWith content "bInterfaceProtocol" then { ifc with interface_protocol := parseIntValue content }
  else if strStartsWith content "iInterface" then
    match nameNumText "iInterface" content with
    | some s => { ifc with interface_name := s }
    | none => ifc
  else ifc

/-- Body loop of `_parse_interface_descriptor`; `fuel` bounds the iteration
count (the wrapper passes the line count, which suffices because every
iteration consumes at least one line). -/
def parseInterfaceLoop (i : Nat) : Nat → USBAudioDevice → InterfaceDescriptor → List LsusbLine →
    USBAudioDevice × InterfaceDescriptor × List LsusbLine
  | _, dev, ifc, [] => (dev, ifc, [])
  | 0, dev, ifc, ls => (dev, ifc, ls)
  | fuel + 1, dev, ifc, l :: ls =>
    if i < l.indent then
      if strStartsWith l.content "Endpoint Descriptor:" then
        let p := parseEndpointDescriptor (l :: ls)
        parseInterfaceLoop i fuel dev { ifc with endpoints := ifc.endpoints ++ [p.1] } p.2
      else if strStartsWith l.content "AudioControl Interface Descriptor:" then
        let p := parseAudioControlDescriptor dev (l :: ls)
        parseInterfaceLoop i fuel p.1 ifc p.2
      else if strStartsWith l.content "AudioStreaming Interface Descriptor:" then
        let p := parseAudioStreamingDescriptor dev ifc (l :: ls)
        parseInterfaceLoop i fuel p.1 ifc p.2
      else parseInterfaceLoop i fuel dev (stepInterface ifc l.content) ls
    else (dev, ifc, l :: ls)

/-- `_parse_interface_descriptor`: the first line is the section header. -/
def parseInterfaceDescriptor (dev : USBAudioDevice) :
    List LsusbLine → USBAudioDevice × InterfaceDescriptor × List LsusbLine
  | [] => (dev, {}, [])
  | l :: ls => parseInterfaceLoop l.indent ls.length dev {} ls

theorem parseInterfaceLoop_rest_length (i : Nat) (fuel : Nat) (dev : USBAudioDevice)
    (ifc : InterfaceDescriptor) (ls : List LsusbLine) :
    (parseInterfaceLoop i fuel dev ifc ls).2.2.length ≤ ls.length := by
  induction fuel generalizing dev ifc ls with
  | zero => cases ls <;> simp [parseInterfaceLoop]
  | succ fuel ih =>
    cases ls with
    | nil => simp [parseInterfaceLoop]
    | cons l ls =>
      simp only [parseInterfaceLoop]
      split
      · split
        · exact le_trans (ih _ _ _)
            (le_trans (parseEndpointDescriptor_rest_length l ls) (Nat.le_succ _))
        · split
          · exact le_trans (ih _ _ _)
              (le_trans (parseAudioControlDescriptor_rest_length dev l ls) (Nat.le_succ _))
          · split
            · exact le_trans (ih _ _ _)
                (le_trans (parseAudioStreamingDescriptor_rest_length dev ifc l ls) (Nat.le_succ _))
            · exact le_trans (ih _ _ _) (Nat.le_succ _)
      · simp

theorem parseInterfaceDescriptor_rest_length (dev : USBAudioDevice) (l : LsusbLine)
    (ls : List LsusbLine) : (parseInterfaceDescriptor dev (l :: ls)).2.2.length ≤ ls.length := by
  simpa [parseInterfaceDescriptor] using
    parseInterfaceLoop_rest_length l.indent ls.length dev {} ls

/-! ### Configuration descriptors (`_parse_configuration_descriptor`) -/

/-- Simple field branches of `_parse_configuration_descriptor` (the nested
`Interface Descriptor:` branch lives in the loop below). -/
def stepConfig (cfg : ConfigurationDescriptor) (content : String) : ConfigurationDescriptor :=
  if strStartsWith content "bConfigurationValue" then { cfg with config_value := parseIntValue content }
  else if strStartsWith content "bNumInterfaces" then { cfg with num_interfaces := parseIntValue content }
  else if strStartsWith content "iConfiguration" then
    match nameNumText "iConfiguration" content with
    | some s => { cfg with config_name := s }
    | none => cfg
  else if strStartsWith content "bmAttributes" then { cfg with attributes := parseHexValue content }
  else if strStartsWith content "MaxPower" then { cfg with max_power_ma := parseIntValue content }
  else cfg

/-- Body loop of `_parse_configuration_descriptor`. -/
def parseConfigLoop (i : Nat) : Nat → USBAudioDevice → ConfigurationDescriptor → List LsusbLine →
    USBAudioDevice × ConfigurationDescriptor × List LsusbLine
  | _, dev, cfg, [] => (dev, cfg, [])
  | 0, dev, cfg, ls => (dev, cfg, ls)
  | fuel + 1, dev, cfg, l :: ls =>
    if i < l.indent then
      if strStartsWith l.content "Interface Descriptor:" then
        let p := parseInterfaceDescriptor dev (l :: ls)
        parseConfigLoop i fuel p.1 { cfg with interfaces := cfg.interfaces ++ [p.2.1] } p.2.2
      else parseConfigLoop i fuel dev (stepConfig cfg l.content) ls
    else (dev, cfg, l :: ls)

/-- `_parse_configuration_descriptor`: the first line is the section header. -/
def parseConfigurationDescriptor (dev : USBAudioDevice) :
    List LsusbLine → USBAudioDevice × ConfigurationDescriptor × List LsusbLine
  | [] => (dev, {}, [])
  | l :: ls => parseConfigLoop l.indent ls.length dev {} ls

theorem parseConfigLoop_rest_length (i : Nat) (fuel : Nat) (dev : USBAudioDevice)
    (cfg : ConfigurationDescriptor) (ls : List LsusbLine) :
    (parseConfigLoop i fuel dev cfg ls).2.2.length ≤ ls.length := by
  induction fuel generalizing dev cfg ls with
  | zero => cases ls <;> simp [parseConfigLoop]
  | succ fuel ih =>
    cases ls with
    | nil => simp [parseConfigLoop]
    | cons l ls =>
      simp only [parseConfigLoop]
      split
      · split
        · exact le_trans (ih _ _ _)
            (le_trans (parseInterfaceDescriptor_rest_length dev l ls) (Nat.le_succ _))
        · exact le_trans (ih _ _ _) (Nat.le_succ _)
      · simp

theorem parseConfigurationDescriptor_rest_length (dev : USBAudioDevice) (l : LsusbLine)
    (ls : List LsusbLine) :
    (parseConfigurationDescriptor dev (l :: ls)).2.2.length ≤ ls.length := by
  simpa [parseConfigurationDescriptor] using
    parseConfigLoop_rest_length l.indent ls.length dev {} ls

/-! ### Device descriptor (`_parse_device_descriptor`)

The `bcdUSB` branch executes
`desc.usb_version = self._parse_field(content, "bcdUSB").split()[0]`
(`parser.py` line 204). When the field has no value text, `_parse_field`
returns the empty string, `"".split()` is the empty list, and the `[0]`
subscript raises `IndexError`. That raise is modelled as `Except.error ()`. -/

/-- if/elif chain of `_parse_device_descriptor`; the `bcdUSB` branch can
raise (see above). -/
def stepDevice (d : DeviceDescriptor) (content : String) : Except Unit DeviceDescriptor :=
  if strStartsWith content "bcdUSB" then
    match pySplitWs (parseField content "bcdUSB").data with
    | [] => Except.error ()
    | t :: _ => Except.ok { d with usb_version := String.mk t }
  else Except.ok (
    if strStartsWith content "bDeviceClass" then { d with device_class := parseIntValue content }
    else if strStartsWith content "bDeviceSubClass" then { d with device_subclass := parseIntValue content }
    else if strStartsWith content "bDeviceProtocol" then { d with device_protocol := parseIntValue content }
    else if strStartsWith content "bMaxPacketSize0" then { d with max_packet_size_0 := parseIntValue content }
    else if strStartsWith content "idVendor" then
      let d2 := { d with vendor_id := parseHexValue content }
      match searchHexText content.data with
      | some v => { d2 with manufacturer := String.mk (stripChars v) }
      | none => d2
    else if strStartsWith content "idProduct" then
      let d2 := { d with product_id := parseHexValue content }
      match searchHexText content.data with
      | some v => { d2 with product := String.mk (stripChars v) }
      | none => d2
    else if strStartsWith content "bcdDevice" then { d with bcd_device := parseHexValue content }
    else if strStartsWith content "iManufacturer" then
      match nameNumText "iManufacturer" content with
      | some s => { d with manufacturer := s }
      | none => d
    else if strStartsWith content "iProduct" then
      match nameNumText "iProduct" content with
      | some s => { d with product := s }
      | none => d
    else if strStartsWith content "iSerial" then
      match nameNumText "iSerial" content with
      | some s => { d with serial_number := s }
      | none => d
    else if strStartsWith content "bNumConfigurations" then { d with num_configurations := parseIntValue content }
    else d)

/-- Body loop of `_parse_device_descriptor`. Besides the indent boundary it
stops early (`break` in the source) at a nested `Configuration Descriptor:`
header, which lsusb emits inside the device descriptor block. -/
def parseDeviceLoop (i : Nat) : Nat → DeviceDescriptor → List LsusbLine →
    Except Unit (DeviceDescriptor × List LsusbLine)
  | _, d, [] => Except.ok (d, [])
  | 0, d, ls => Except.ok (d, ls)
  | fuel + 1, d, l :: ls =>
    if i < l.indent then
      if strStartsWith l.content "Configuration Descriptor:" then Except.ok (d, l :: ls)
      else (stepDevice d l.content).bind (fun d2 => parseDeviceLoop i fuel d2 ls)
    else Except.ok (d, l :: ls)

/-- `_parse_device_descriptor`: the first line is the section header. -/
def parseDeviceDescriptor : List LsusbLine → Except Unit (DeviceDescriptor × List LsusbLine)
  | [] => Except.ok ({}, [])
  | l :: ls => parseDeviceLoop l.indent ls.length {} ls

theorem parseDeviceLoop_rest_length (i : Nat) (fuel : Nat) (d : DeviceDescriptor)
    (ls : List LsusbLine) (d2 : DeviceDescriptor) (rest : List LsusbLine)
    (h : parseDeviceLoop i fuel d ls = Except.ok (d2, rest)) : rest.length ≤ ls.length := by
  induction fuel generalizing d ls with
  | zero =>
    cases ls <;> simp only [parseDeviceLoop, Except.ok.injEq, Prod.mk.injEq] at h <;>
      simp [← h.2]
  | succ fuel ih =>
    cases ls with
    | nil =>
      simp only [parseDeviceLoop, Except.ok.injEq, Prod.mk.injEq] at h
      simp [← h.2]
    | cons l ls =>
      simp only [parseDeviceLoop] at h
      split at h
      · split at h
        · simp only [Except.ok.injEq, Prod.mk.injEq] at h
          simp [← h.2]
        · cases hsd : stepDevice d l.content with
          | error e => rw [hsd] at h; exact absurd h (by simp [Except.bind])
          | ok d3 =>
            rw [hsd] at h
            simp only [Except.bind] at h
            exact le_trans (ih _ _ h) (Nat.le_succ _)
      · simp only [Except.ok.injEq, Prod.mk.injEq] at h
        simp [← h.2]

theorem parseDeviceDescriptor_rest_length (l : LsusbLine) (ls : List LsusbLine)
    (d : DeviceDescriptor) (rest : List LsusbLine)
    (h : parseDeviceDescriptor (l :: ls) = Except.ok (d, rest)) : rest.length ≤ ls.length :=
  parseDeviceLoop_rest_length l.indent ls.length {} ls d rest h

/-! ### Top-level parse (`LsusbParser.parse`, `parse_lsusb`) -/

/-- The `while self._current():` loop of `LsusbParser.parse`; `fuel` bounds
the iteration count (the wrapper passes the line count, which suffices
because every iteration consumes at least one line). -/
def parseTopLoop : Nat → USBAudioDevice → List LsusbLine → Except Unit USBAudioDevice
  | _, dev, [] => Except.ok dev
  | 0, dev, _ => Except.ok dev
  | fuel + 1, dev, l :: ls =>
    if strStartsWith l.content "Bus " then parseTopLoop fuel dev ls
    else if strStartsWith l.content "Device Descriptor:" then
      (parseDeviceDescriptor (l :: ls)).bind
        (fun p => parseTopLoop fuel { dev with device := p.1 } p.2)
    else if strStartsWith l.content "Configuration Descriptor:" then
      let p := parseConfigurationDescriptor dev (l :: ls)
      parseTopLoop fuel { p.1 with configuration := some p.2.1 } p.2.2
    else parseTopLoop fuel dev ls

/-- `_build_alternate_settings`: one AlternateSetting per parsed streaming
interface, in parse order, each paired with the data endpoint (or first
endpoint) of the matching interface descriptor of the stored configuration.
Returns the list together with the updated streaming interfaces (the Python
code mutates `streaming.endpoint` in place on the shared objects). -/
def altEntryFor (cfg : ConfigurationDescriptor) (s : AudioStreamingInterface) :
    AlternateSetting × AudioStreamingInterface :=
  -- loop body of `_build_alternate_settings` for one streaming interface

  let base : AlternateSetting :=
    { interface_number := s.interface_number, alternate_setting := s.alternate_setting,
      streaming_interface := some s, format := s.format, endpoint := none }
  match cfg.interfaces.find? (fun ifc =>
      ifc.interface_number == s.interface_number &&
      ifc.alternate_setting == s.alternate_setting) with
  | none => (base, s)
  | some ifc =>
    match (ifc.endpoints.find? (fun (ep : EndpointDescriptor) =>
        ep.usage_type == UsageType.DATA)).orElse (fun _ => ifc.endpoints.head?) with
    | none => (base, s)
    | some ep =>
      let s2 := { s with endpoint := some ep }
      ({ base with streaming_interface := some s2, endpoint := some ep }, s2)

/-- Main body of `_build_alternate_settings` (empty result and untouched
streams when no configuration was stored). -/
def buildAlternateSettings (dev : USBAudioDevice) :
    List AlternateSetting × List AudioStreamingInterface :=
  match dev.configuration with
  | none => ([], dev.streaming_interfaces)
  | some cfg =>
    let pairs := dev.streaming_interfaces.map (altEntryFor cfg)
    (pairs.map (fun p => p.1), pairs.map (fun p => p.2))

/-- `LsusbParser.parse` / `parse_lsusb`: tokenize, run the top-level loop,
then attach the alternate-settings list. `Except.error ()` is the
`IndexError` raise described at `stepDevice`. -/
def parseLsusb (text : String) : Except Unit USBAudioDevice :=
  (parseTopLoop (tokenize text).length {} (tokenize text)).map
    (fun dev =>
      let p := buildAlternateSettings dev
      { dev with alternate_settings := p.1, streaming_interfaces := p.2 })

/-- Lexicographic order on (interface number, alternate setting) keys,
as a computable check that consecutive entries are ordered. -/
def keyLe (a b : Nat × Nat) : Bool :=
  a.1 < b.1 || (a.1 == b.1 && a.2 ≤ b.2)

/-- Computable sortedness of a key sequence: every consecutive pair is
ordered by `keyLe`. -/
def keysSorted : List (Nat × Nat) → Bool
  | [] => true
  | [_] => true
  | a :: b :: rest => keyLe a b && keysSorted (b :: rest)

/-- The (interface number, alternate setting) key of an AlternateSetting. -/
def AlternateSetting.key (a : AlternateSetting) : Nat × Nat :=
  (a.interface_number, a.alternate_setting)

/-- The (interface number, alternate setting) key of a streaming interface. -/
def AudioStreamingInterface.key (s : AudioStreamingInterface) : Nat × Nat :=
  (s.interface_number, s.alternate_setting)

/-! ### Topology graph (`topology.py`)

`TopologyGraph.nodes` is a Python dict keyed by entity id; it is modelled as
an insertion-ordered association list with in-place overwrite (`dictInsert`),
which matches dict iteration and lookup semantics. The rendering-only node
fields (`name`, `description`, `controls`, `entity`) are omitted; node
identity, type, channel count and the USB-streaming flag are kept. -/

/-- `topology.NodeType`. -/
inductive NodeType
  | INPUT_TERMINAL
  | OUTPUT_TERMINAL
  | FEATURE_UNIT
  | MIXER_UNIT
  | SELECTOR_UNIT
  | PROCESSING_UNIT
  | EXTENSION_UNIT
  | CLOCK_SOURCE
  | CLOCK_SELECTOR
  | CLOCK_MULTIPLIER
deriving DecidableEq, Repr

/-- `topology.TopologyNode` (rendering-only fields omitted). -/
structure TopologyNode where
  id : Nat := 0
  node_type : NodeType := NodeType.INPUT_TERMINAL
  channels : Nat := 0
  is_usb_streaming : Bool := false
deriving DecidableEq, Repr

/-- `topology.TopologyEdge`. -/
structure TopologyEdge where
  source_id : Nat := 0
  target_id : Nat := 0
  channels : Nat := 0
  is_clock : Bool := false
deriving DecidableEq, Repr

/-- `topology.SignalPath` (the rendering-only `description` is omitted). -/
structure SignalPath where
  nodes : List TopologyNode := []
deriving DecidableEq, Repr

/-- `topology.TopologyGraph`. -/
structure TopologyGraph where
  nodes : List (Nat × TopologyNode) := []
  edges : List TopologyEdge := []
  signal_paths : List SignalPath := []
  input_terminals : List TopologyNode := []
  output_terminals : List TopologyNode := []
  units : List TopologyNode := []
  clock_entities : List TopologyNode := []
  usb_input_terminals : List TopologyNode := []
  usb_output_terminals : List TopologyNode := []
deriving DecidableEq, Repr

/-- Python `dict.__setitem__`: overwrite in place, append when absent. -/
def dictInsert (k : Nat) (v : TopologyNode) : List (Nat × TopologyNode) → List (Nat × TopologyNode)
  | [] => [(k, v)]
  | (k2, v2) :: rest => if k2 = k then (k, v) :: rest else (k2, v2) :: dictInsert k v rest

/-- Python `dict.get`: value at the first (unique) matching key. -/
def dictGet (k : Nat) : List (Nat × TopologyNode) → Option TopologyNode
  | [] => none
  | p :: rest => if p.1 = k then some p.2 else dictGet k rest

/-- Python `k in dict`. -/
def dictMem (k : Nat) (d : List (Nat × TopologyNode)) : Bool :=
  (dictGet k d).isSome

/-- `TopologyGraph.get_sources`: nodes feeding the given node through
non-clock edges, in edge order. -/
def getSources (g : TopologyGraph) (node_id : Nat) : List TopologyNode :=
  g.edges.filterMap (fun e =>
    if e.target_id == node_id && !e.is_clock then dictGet e.source_id g.nodes else none)

/-- `topology._add_input_terminals`. -/
def addInputTerminals (g : TopologyGraph) : List InputTerminal → TopologyGraph
  | [] => g
  | t :: ts =>
    let node : TopologyNode :=
      { id := t.terminal_id, node_type := NodeType.INPUT_TERMINAL,
        channels := t.nr_channels, is_usb_streaming := t.is_usb_streaming }
    let g2 := { g with nodes := dictInsert t.terminal_id node g.nodes,
                       input_terminals := g.input_terminals ++ [node] }
    let g3 := if t.is_usb_streaming then
        { g2 with usb_input_terminals := g2.usb_input_terminals ++ [node] }
      else g2
    addInputTerminals g3 ts

/-- `topology._add_output_terminals` (channel count is fixed to zero in the
source: output terminals do not specify channels directly). -/
def addOutputTerminals (g : TopologyGraph) : List OutputTerminal → TopologyGraph
  | [] => g
  | t :: ts =>
    let node : TopologyNode :=
      { id := t.terminal_id, node_type := NodeType.OUTPUT_TERMINAL,
        channels := 0, is_usb_streaming := t.is_usb_streaming }
    let g2 := { g with nodes := dictInsert t.terminal_id node g.nodes,
                       output_terminals := g.output_terminals ++ [node] }
    let g3 := if t.is_usb_streaming then
        { g2 with usb_output_terminals := g2.usb_output_terminals ++ [node] }
      else g2
    addOutputTerminals g3 ts

/-- `topology._add_feature_units`. -/
def addFeatureUnits (g : TopologyGraph) : List FeatureUnit → TopologyGraph
  | [] => g
  | u :: us =>
    let node : TopologyNode :=
      { id := u.unit_id, node_type := NodeType.FEATURE_UNIT, channels := u.nr_channels }
    addFeatureUnits
      { g with nodes := dictInsert u.unit_id node g.nodes, units := g.units ++ [node] } us

/-- `topology._add_mixer_units`. -/
def addMixerUnits (g : TopologyGraph) : List MixerUnit → TopologyGraph
  | [] => g
  | u :: us =>
    let node : TopologyNode :=
      { id := u.unit_id, node_type := NodeType.MIXER_UNIT, channels := u.nr_channels }
    addMixerUnits
      { g with nodes := dictInsert u.unit_id node g.nodes, units := g.units ++ [node] } us

/-- `topology._add_selector_units` (channels fixed to zero in the source). -/
def addSelectorUnits (g : TopologyGraph) : List SelectorUnit → TopologyGraph
  | [] => g
  | u :: us =>
    let node : TopologyNode :=
      { id := u.unit_id, node_type := NodeType.SELECTOR_UNIT, channels := 0 }
    addSelectorUnits
      { g with nodes := dictInsert u.unit_id node g.nodes, units := g.units ++ [node] } us

/-- `topology._add_processing_units`. -/
def addProcessingUnits (g : TopologyGraph) : List ProcessingUnit → TopologyGraph
  | [] => g
  | u :: us =>
    let node : TopologyNode :=
      { id := u.unit_id, node_type := NodeType.PROCESSING_UNIT, channels := u.nr_channels }
    addProcessingUnits
      { g with nodes := dictInsert u.unit_id node g.nodes, units := g.units ++ [node] } us

/-- `topology._add_extension_units`. -/
def addExtensionUnits (g : TopologyGraph) : List ExtensionUnit → TopologyGraph
  | [] => g
  | u :: us =>
    let node : TopologyNode :=
      { id := u.unit_id, node_type := NodeType.EXTENSION_UNIT, channels := u.nr_channels }
    addExtensionUnits
      { g with nodes := dictInsert u.unit_id node g.nodes, units := g.units ++ [node] } us

/-- First loop of `topology._add_clock_entities`. -/
def addClockSources (g : TopologyGraph) : List ClockSource → TopologyGraph
  | [] => g
  | c :: cs =>
    let node : TopologyNode := { id := c.clock_id, node_type := NodeType.CLOCK_SOURCE }
    addClockSources
      { g with nodes := dictInsert c.clock_id node g.nodes,
               clock_entities := g.clock_entities ++ [node] } cs

/-- Second loop of `topology._add_clock_entities`. -/
def addClockSelectors (g : TopologyGraph) : List ClockSelector → TopologyGraph
  | [] => g
  | c :: cs =>
    let node : TopologyNode := { id := c.clock_id, node_type := NodeType.CLOCK_SELECTOR }
    addClockSelectors
      { g with nodes := dictInsert c.clock_id node g.nodes,
               clock_entities := g.clock_entities ++ [node] } cs

/-- Third loop of `topology._add_clock_entities`. -/
def addClockMultipliers (g : TopologyGraph) : List ClockMultiplier → TopologyGraph
  | [] => g
  | c :: cs =>
    let node : TopologyNode := { id := c.clock_id, node_type := NodeType.CLOCK_MULTIPLIER }
    addClockMultipliers
      { g with nodes := dictInsert c.clock_id node g.nodes,
               clock_entities := g.clock_entities ++ [node] } cs

/-! ### Edge construction (`topology._build_edges`)

The Python guards `if terminal.source_id and terminal.source_id in
graph.nodes` combine integer truthiness (0 is falsy) with dict membership;
the list-valued loops test membership only. -/

/-- Output-terminal loop of `_build_edges` (scalar `source_id`, zero is
falsy and never yields an edge). -/
def outputTerminalEdges (nodes : List (Nat × TopologyNode)) (ts : List OutputTerminal) :
    List TopologyEdge :=
  ts.filterMap (fun t =>
    if t.source_id != 0 && dictMem t.source_id nodes then
      some { source_id := t.source_id, target_id := t.terminal_id,
             channels := ((dictGet t.source_id nodes).map (fun n => n.channels)).getD 0 }
    else none)

/-- Feature-unit loop of `_build_edges` (scalar `source_id`, zero guard). -/
def featureUnitEdges (nodes : List (Nat × TopologyNode)) (us : List FeatureUnit) :
    List TopologyEdge :=
  us.filterMap (fun u =>
    if u.source_id != 0 && dictMem u.source_id nodes then
      some { source_id := u.source_id, target_id := u.unit_id,
             channels := ((dictGet u.source_id nodes).map (fun n => n.channels)).getD 0 }
    else none)

/-- Mixer-unit loop of `_build_edges` (list of sources, membership test
only, no zero guard). -/
def mixerUnitEdges (nodes : List (Nat × TopologyNode)) (us : List MixerUnit) :
    List TopologyEdge :=
  us.flatMap (fun u => u.source_ids.filterMap (fun sid =>
    if dictMem sid nodes then
      some { source_id := sid, target_id := u.unit_id,
             channels := ((dictGet sid nodes).map (fun n => n.channels)).getD 0 }
    else none))

/-- Selector-unit loop of `_build_edges`. -/
def selectorUnitEdges (nodes : List (Nat × TopologyNode)) (us : List SelectorUnit) :
    List TopologyEdge :=
  us.flatMap (fun u => u.source_ids.filterMap (fun sid =>
    if dictMem sid nodes then
      some { source_id := sid, target_id := u.unit_id,
             channels := ((dictGet sid nodes).map (fun n => n.channels)).getD 0 }
    else none))

/-- Processing-unit loop of `_build_edges`. -/
def processingUnitEdges (nodes : List (Nat × TopologyNode)) (us : List ProcessingUnit) :
    List TopologyEdge :=
  us.flatMap (fun u => u.source_ids.filterMap (fun sid =>
    if dictMem sid nodes then
      some { source_id := sid, target_id := u.unit_id,
             channels := ((dictGet sid nodes).map (fun n => n.channels)).getD 0 }
    else none))

/-- Extension-unit loop of `_build_edges`. -/
def extensionUnitEdges (nodes : List (Nat × TopologyNode)) (us : List ExtensionUnit) :
    List TopologyEdge :=
  us.flatMap (fun u => u.source_ids.filterMap (fun sid =>
    if dictMem sid nodes then
      some { source_id := sid, target_id := u.unit_id,
             channels := ((dictGet sid nodes).map (fun n => n.channels)).getD 0 }
    else none))

/-- Clock-selector loop of `_build_edges` (pin list, membership test only,
edges tagged clock). -/
def clockSelectorEdges (nodes : List (Nat × TopologyNode)) (cs : List ClockSelector) :
    List TopologyEdge :=
  cs.flatMap (fun c => c.clock_pin_ids.filterMap (fun sid =>
    if dictMem sid nodes then
      some { source_id := sid, target_id := c.clock_id, is_clock := true }
    else none))

/-- Clock-multiplier loop of `_build_edges` (scalar `clock_source_id`, zero
guard, edge tagged clock). -/
def clockMultiplierEdges (nodes : List (Nat × TopologyNode)) (cs : List ClockMultiplier) :
    List TopologyEdge :=
  cs.filterMap (fun c =>
    if c.clock_source_id != 0 && dictMem c.clock_source_id nodes then
      some { source_id := c.clock_source_id, target_id := c.clock_id, is_clock := true }
    else none)

/-- `topology._build_edges`: the eight loops in source order. -/
def buildEdges (g : TopologyGraph) (ac : AudioControlInterface) : TopologyGraph :=
  { g with edges := g.edges
      ++ outputTerminalEdges g.nodes ac.output_terminals
      ++ featureUnitEdges g.nodes ac.feature_units
      ++ mixerUnitEdges g.nodes ac.mixer_units
      ++ selectorUnitEdges g.nodes ac.selector_units
      ++ processingUnitEdges g.nodes ac.processing_units
      ++ extensionUnitEdges g.nodes ac.extension_units
      ++ clockSelectorEdges g.nodes ac.clock_selectors
      ++ clockMultiplierEdges g.nodes ac.clock_multipliers }

/-! ### Signal path tracing (`topology._trace_back`, `_find_signal_paths`)

`_trace_back` recurses backwards over `get_sources`; the Python recursion
terminates because the visited set grows strictly inside the node-id set.
The embedding makes that bound explicit with a fuel argument;
`findSignalPaths` passes `nodes.length + 1`, which theorem `C8` proves
sufficient (the result is the same for every fuel beyond the visited-set
bound). -/

/-- `topology._trace_back`. The Python `visited` set is a list used through
membership; `current_path` is extended at the head exactly as
`[node_id] + current_path`. -/
def traceBack (g : TopologyGraph) : Nat → Nat → List Nat → List Nat → List (List Nat)
  | 0, _, _, _ => []
  | fuel + 1, node_id, current_path, visited =>
    if node_id ∈ visited then []
    else
      let visited2 := node_id :: visited
      let path2 := node_id :: current_path
      match dictGet node_id g.nodes with
      | none => []
      | some node =>
        if node.node_type = NodeType.INPUT_TERMINAL then [path2]
        else
          let sources := getSources g node_id
          if sources.isEmpty then []
          else sources.flatMap (fun s => traceBack g fuel s.id path2 visited2)

/-- `topology._find_signal_paths`. -/
def findSignalPaths (g : TopologyGraph) : List SignalPath :=
  g.output_terminals.flatMap (fun ot =>
    (traceBack g (g.nodes.length + 1) ot.id [] []).filterMap (fun node_ids =>
      let nds := node_ids.filterMap (fun nid => dictGet nid g.nodes)
      if nds.isEmpty then none else some { nodes := nds }))

/-- `topology.build_topology`. -/
def buildTopology (dev : USBAudioDevice) : TopologyGraph :=
  match dev.audio_control with
  | none => {}
  | some ac =>
    let g : TopologyGraph := {}
    let g := addInputTerminals g ac.input_terminals
    let g := addOutputTerminals g ac.output_terminals
    let g := addFeatureUnits g ac.feature_units
    let g := addMixerUnits g ac.mixer_units
    let g := addSelectorUnits g ac.selector_units
    let g := addProcessingUnits g ac.processing_units
    let g := addExtensionUnits g ac.extension_units
    let g := addClockSources g ac.clock_sources
    let g := addClockSelectors g ac.clock_selectors
    let g := addClockMultipliers g ac.clock_multipliers
    let g := buildEdges g ac
    { g with signal_paths := findSignalPaths g }

/-- `topology.get_playback_paths`: paths starting at a USB streaming input
terminal. -/
def getPlaybackPaths (g : TopologyGraph) : List SignalPath :=
  g.signal_paths.filter (fun p =>
    match p.nodes.head? with
    | some n => n.is_usb_streaming
    | none => false)

/-- `topology.get_capture_paths`: paths ending at a USB streaming output
terminal. -/
def getCapturePaths (g : TopologyGraph) : List SignalPath :=
  g.signal_paths.filter (fun p =>
    match p.nodes.getLast? with
    | some n => n.is_usb_streaming
    | none => false)

/-! ### Multi-configuration model and configuration selection

Modelled from the spec: section 4.2 of the specification requires the parser
to retain every Configuration Descriptor section encountered, tagging each
with a UAC version computed from its own AudioControl header, and sections
4.2 and 7 require a configuration-selection operation that switches the
active pointer among retained configurations and reports failure, leaving
the active selection untouched, when the requested version is absent. The
sources under `src/uac_analyzer/` do not contain this multi-configuration
model: `model.USBAudioDevice` stores a single `configuration` field and has
no `configurations` list, no `available_uac_versions` and no
`select_configuration`, although `src/tests/test_parser.py`
(class TestMultiConfigDevice) calls all three. The definitions below model
the missing component from the words of the spec, reusing the embedded
section parsers for each retained configuration. -/

/-- Modelled from the spec: one retained configuration with the audio data
parsed from its own section and its independently computed version tag. -/
structure UACConfiguration where
  config : ConfigurationDescriptor := {}
  uac_version : UACVersion := UACVersion.UNKNOWN
  audio_control : Option AudioControlInterface := none
deriving DecidableEq, Repr

/-- Modelled from the spec: the multi-configuration device, with the list of
retained configurations and the index of the active one. -/
structure MultiConfigDevice where
  device : DeviceDescriptor := {}
  configurations : List UACConfiguration := []
  active : Option Nat := none
deriving DecidableEq, Repr

/-- Modelled from the spec: the version tag of one configuration, computed
from its own AudioControl header (absent or unrecognized header: unknown). -/
def configVersionTag (ac : Option AudioControlInterface) : UACVersion :=
  match ac with
  | some a =>
    match a.header with
    | some h => h.uac_version
    | none => UACVersion.UNKNOWN
  | none => UACVersion.UNKNOWN

/-- Modelled from the spec: the top-level parse loop that retains every
Configuration Descriptor section. Each section is parsed with the embedded
`parseConfigurationDescriptor` against a fresh scratch device, so every
configuration carries its own audio-control data, and the resulting entry is
appended to the retained list (never overwriting earlier entries). -/
def parseMultiLoop : Nat → MultiConfigDevice → List LsusbLine → Except Unit MultiConfigDevice
  | _, d, [] => Except.ok d
  | 0, d, _ => Except.ok d
  | fuel + 1, d, l :: ls =>
    if strStartsWith l.content "Bus " then parseMultiLoop fuel d ls
    else if strStartsWith l.content "Device Descriptor:" then
      (parseDeviceDescriptor (l :: ls)).bind
        (fun p => parseMultiLoop fuel { d with device := p.1 } p.2)
    else if strStartsWith l.content "Configuration Descriptor:" then
      let p := parseConfigurationDescriptor {} (l :: ls)
      let entry : UACConfiguration :=
        { config := p.2.1, uac_version := configVersionTag p.1.audio_control,
          audio_control := p.1.audio_control }
      parseMultiLoop fuel { d with configurations := d.configurations ++ [entry] } p.2.2
    else parseMultiLoop fuel d ls

/-- Modelled from the spec: the UAC versions available on the device, one
per retained configuration. -/
def availableUacVersions (d : MultiConfigDevice) : List UACVersion :=
  d.configurations.map (fun c => c.uac_version)

/-- Modelled from the spec: rank used to pick the default (highest) version. -/
def versionRank : UACVersion → Nat
  | UACVersion.UNKNOWN => 0
  | UACVersion.UAC_1_0 => 1
  | UACVersion.UAC_2_0 => 2
  | UACVersion.UAC_3_0 => 3

/-- Modelled from the spec: index of the first configuration with the
highest version rank (none for an empty list). -/
def bestConfigIdx (cfgs : List UACConfiguration) : Option Nat :=
  (cfgs.enum.foldl (fun best p =>
    match best with
    | none => some p
    | some q =>
      if versionRank p.2.uac_version > versionRank q.2.uac_version then some p else some q)
    none).map (fun p => p.1)

/-- Modelled from the spec: `select_configuration`. Switches the active
pointer to the first retained configuration of the requested version and
returns success; when the version is absent it returns failure and leaves
the device (in particular its active selection) unchanged. -/
def selectConfiguration (d : MultiConfigDevice) (v : UACVersion) : Bool × MultiConfigDevice :=
  match d.configurations.findIdx? (fun c => c.uac_version == v) with
  | some i => (true, { d with active := some i })
  | none => (false, d)

/-- Modelled from the spec: parse with multi-configuration retention; the
default active configuration is the highest available version. -/
def parseMultiConfig (text : String) : Except Unit MultiConfigDevice :=
  (parseMultiLoop (tokenize text).length {} (tokenize text)).map
    (fun d => { d with active := bestConfigIdx d.configurations })

/-! ### Indentation-boundary specification (section consumption)

`SectionSpec i ls rest` states the indentation-boundary law for one section
body: the parser split `ls` into a consumed prefix whose lines all have
indent strictly greater than the header indent `i`, and stopped either at
end of input or at a line with indent `≤ i` (which, the prefix being
consumed in order, is the first such line). `SectionSpecDev` is the weaker
law obeyed by the device-descriptor section, which may also stop early at a
nested `Configuration Descriptor:` header. -/

def SectionSpec (i : Nat) (ls rest : List LsusbLine) : Prop :=
  ∃ c, ls = c ++ rest ∧ (∀ x ∈ c, i < x.indent) ∧
    (rest = [] ∨ ∃ h t, rest = h :: t ∧ h.indent ≤ i)

def SectionSpecDev (i : Nat) (ls rest : List LsusbLine) : Prop :=
  ∃ c, ls = c ++ rest ∧ (∀ x ∈ c, i < x.indent) ∧
    (rest = [] ∨ ∃ h t, rest = h :: t ∧
      (h.indent ≤ i ∨ strStartsWith h.content "Configuration Descriptor:" = true))

/-- Consuming further high-indent lines in front preserves the law. -/
theorem sectionSpec_prepend {i : Nat} {c r r2 ls : List LsusbLine}
    (hls : ls = c ++ r) (hc : ∀ x ∈ c, i < x.indent) (hs : SectionSpec i r r2) :
    SectionSpec i ls r2 := by
  obtain ⟨c2, hr, hc2, hstop⟩ := hs
  refine ⟨c ++ c2, ?_, ?_, hstop⟩
  · rw [hls, hr, List.append_assoc]
  · intro x hx
    rcases List.mem_append.mp hx with hx1 | hx2
    · exact hc x hx1
    · exact hc2 x hx2

theorem parseFields_sectionSpec {α : Type} (i : Nat) (step : α → String → α) (a : α)
    (ls : List LsusbLine) : SectionSpec i ls (parseFields i step a ls).2 := by
  induction ls generalizing a with
  | nil => exact ⟨[], by simp [parseFields], by simp, Or.inl (by simp [parseFields])⟩
  | cons l ls ih =>
    simp only [parseFields]
    split
    · obtain ⟨c, h1, h2, h3⟩ := ih (step a l.content)
      refine ⟨l :: c, by rw [List.cons_append, ← h1], ?_, h3⟩
      intro x hx
      rcases List.mem_cons.mp hx with hx1 | hx2
      · subst hx1
        omega
      · exact h2 x hx2
    · exact ⟨[], by simp, by simp, Or.inr ⟨l, ls, rfl, by omega⟩⟩

theorem skipBlock_sectionSpec (i : Nat) (ls : List LsusbLine) :
    SectionSpec i ls (skipBlock i ls) := by
  induction ls with
  | nil => exact ⟨[], by simp [skipBlock], by simp, Or.inl (by simp [skipBlock])⟩
  | cons l ls ih =>
    simp only [skipBlock]
    split
    · obtain ⟨c, h1, h2, h3⟩ := ih
      refine ⟨l :: c, by rw [List.cons_append, ← h1], ?_, h3⟩
      intro x hx
      rcases List.mem_cons.mp hx with hx1 | hx2
      · subst hx1
        omega
      · exact h2 x hx2
    · exact ⟨[], by simp, by simp, Or.inr ⟨l, ls, rfl, by omega⟩⟩

/-- The subtype lookahead consumes only body lines (indent above the header). -/
theorem scanSubtype_consumed (i : Nat) (ls : List LsusbLine) :
    ∃ c, ls = c ++ (scanSubtype i ls).2 ∧ ∀ x ∈ c, i < x.indent := by
  induction ls with
  | nil => exact ⟨[], by simp [scanSubtype], by simp⟩
  | cons l ls ih =>
    simp only [scanSubtype]
    split
    · split
      · exact ⟨[], by simp, by simp⟩
      · obtain ⟨c, h1, h2⟩ := ih
        refine ⟨l :: c, by rw [List.cons_append, ← h1], ?_⟩
        intro x hx
        rcases List.mem_cons.mp hx with hx1 | hx2
        · subst hx1
          omega
        · exact h2 x hx2
    · exact ⟨[], by simp, by simp⟩

set_option maxHeartbeats 2000000 in
theorem acDispatch_sectionSpec (i : Nat) (st : Nat) (ac : AudioControlInterface)
    (r : List LsusbLine) : SectionSpec i r (acDispatch i st ac r).2 := by
  simp only [acDispatch]
  repeat' split
  · exact parseFields_sectionSpec i stepAcHeader {} r
  · exact parseFields_sectionSpec i stepInputTerminal {} r
  · exact parseFields_sectionSpec i stepOutputTerminal {} r
  · exact parseFields_sectionSpec i stepFeatureUnit {} r
  · exact parseFields_sectionSpec i stepMixerUnit {} r
  · exact parseFields_sectionSpec i stepSelectorUnit {} r
  · exact parseFields_sectionSpec i stepProcessingUnit {} r
  · exact parseFields_sectionSpec i stepExtensionUnit {} r
  · exact parseFields_sectionSpec i stepClockSource {} r
  · exact parseFields_sectionSpec i stepClockSelector {} r
  · exact parseFields_sectionSpec i stepClockMultiplier {} r
  · exact skipBlock_sectionSpec i r

set_option maxHeartbeats 2000000 in
theorem asDispatch_sectionSpec (i : Nat) (st : Nat) (dev : USBAudioDevice)
    (ifc : InterfaceDescriptor) (r : List LsusbLine) :
    SectionSpec i r (asDispatch i st dev ifc r).2 := by
  simp only [asDispatch]
  repeat' split
  · exact parseFields_sectionSpec i stepAsGeneral
      { interface_number := ifc.interface_number, alternate_setting := ifc.alternate_setting } r
  · exact parseFields_sectionSpec i stepFormatType {} r
  · exact skipBlock_sectionSpec i r

theorem parseAudioControlDescriptor_sectionSpec (dev : USBAudioDevice) (l : LsusbLine)
    (ls : List LsusbLine) : SectionSpec l.indent ls (parseAudioControlDescriptor dev (l :: ls)).2 := by
  obtain ⟨c, h1, h2⟩ := scanSubtype_consumed l.indent ls
  exact sectionSpec_prepend h1 h2
    (acDispatch_sectionSpec l.indent (scanSubtype l.indent ls).1 (dev.audio_control.getD {})
      (scanSubtype l.indent ls).2)

theorem parseAudioStreamingDescriptor_sectionSpec (dev : USBAudioDevice)
    (ifc : InterfaceDescriptor) (l : LsusbLine) (ls : List LsusbLine) :
    SectionSpec l.indent ls (parseAudioStreamingDescriptor dev ifc (l :: ls)).2 := by
  obtain ⟨c, h1, h2⟩ := scanSubtype_consumed l.indent ls
  exact sectionSpec_prepend h1 h2
    (asDispatch_sectionSpec l.indent (scanSubtype l.indent ls).1 dev ifc
      (scanSubtype l.indent ls).2)

theorem parseEndpointLoop_sectionSpec (i : Nat) (fuel : Nat) (ep : EndpointDescriptor)
    (ls : List LsusbLine) (hfuel : ls.length ≤ fuel) :
    SectionSpec i ls (parseEndpointLoop i fuel ep ls).2 := by
  induction fuel generalizing ep ls with
  | zero =>
    have : ls = [] := List.length_eq_zero.mp (Nat.le_zero.mp hfuel)
    subst this
    exact ⟨[], by simp [parseEndpointLoop], by simp, Or.inl (by simp [parseEndpointLoop])⟩
  | succ fuel ih =>
    cases ls with
    | nil => exact ⟨[], by simp [parseEndpointLoop], by simp, Or.inl (by simp [parseEndpointLoop])⟩
    | cons l ls =>
      simp only [List.length_cons, Nat.succ_le_succ_iff] at hfuel
      simp only [parseEndpointLoop]
      split
      · split
        · obtain ⟨c1, hc1, hi1, _⟩ :=
            parseFields_sectionSpec l.indent stepAudioEndpoint ep ls
          have hlen : (parseFields l.indent stepAudioEndpoint ep ls).2.length ≤ fuel :=
            le_trans (parseFields_rest_length l.indent stepAudioEndpoint ep ls) hfuel
          refine sectionSpec_prepend (c := l :: c1) (by rw [List.cons_append, ← hc1]) ?_ (ih _ _ hlen)
          intro x hx
          rcases List.mem_cons.mp hx with hx1 | hx2
          · subst hx1
            omega
          · have := hi1 x hx2
            omega
        · refine sectionSpec_prepend (c := [l]) (by simp) ?_ (ih _ _ hfuel)
          intro x hx
          simp only [List.mem_singleton] at hx
          subst hx
          omega
      · exact ⟨[], by simp, by simp, Or.inr ⟨l, ls, rfl, by omega⟩⟩

theorem parseEndpointDescriptor_sectionSpec (l : LsusbLine) (ls : List LsusbLine) :
    SectionSpec l.indent ls (parseEndpointDescriptor (l :: ls)).2 :=
  parseEndpointLoop_sectionSpec l.indent ls.length {} ls (Nat.le_refl _)

theorem parseInterfaceLoop_sectionSpec (i : Nat) (fuel : Nat) (dev : USBAudioDevice)
    (ifc : InterfaceDescriptor) (ls : List LsusbLine) (hfuel : ls.length ≤ fuel) :
    SectionSpec i ls (parseInterfaceLoop i fuel dev ifc ls).2.2 := by
  induction fuel generalizing dev ifc ls with
  | zero =>
    have : ls = [] := List.length_eq_zero.mp (Nat.le_zero.mp hfuel)
    subst this
    exact ⟨[], by simp [parseInterfaceLoop], by simp, Or.inl (by simp [parseInterfaceLoop])⟩
  | succ fuel ih =>
    cases ls with
    | nil =>
      exact ⟨[], by simp [parseInterfaceLoop], by simp, Or.inl (by simp [parseInterfaceLoop])⟩
    | cons l ls =>
      simp only [List.length_cons, Nat.succ_le_succ_iff] at hfuel
      simp only [parseInterfaceLoop]
      split
      · split
        · obtain ⟨c1, hc1, hi1, _⟩ := parseEndpointDescriptor_sectionSpec l ls
          have hlen : (parseEndpointDescriptor (l :: ls)).2.length ≤ fuel :=
            le_trans (parseEndpointDescriptor_rest_length l ls) hfuel
          refine sectionSpec_prepend (c := l :: c1) (by rw [List.cons_append, ← hc1]) ?_
            (ih _ _ _ hlen)
          intro x hx
          rcases List.mem_cons.mp hx with hx1 | hx2
          · subst hx1
            omega
          · have := hi1 x hx2
            omega
        · split
          · obtain ⟨c1, hc1, hi1, _⟩ := parseAudioControlDescriptor_sectionSpec dev l ls
            have hlen : (parseAudioControlDescriptor dev (l :: ls)).2.length ≤ fuel :=
              le_trans (parseAudioControlDescriptor_rest_length dev l ls) hfuel
            refine sectionSpec_prepend (c := l :: c1) (by rw [List.cons_append, ← hc1]) ?_
              (ih _ _ _ hlen)
            intro x hx
            rcases List.mem_cons.mp hx with hx1 | hx2
            · subst hx1
              omega
            · have := hi1 x hx2
              omega
          · split
            · obtain ⟨c1, hc1, hi1, _⟩ := parseAudioStreamingDescriptor_sectionSpec dev ifc l ls
              have hlen : (parseAudioStreamingDescriptor dev ifc (l :: ls)).2.length ≤ fuel :=
                le_trans (parseAudioStreamingDescriptor_rest_length dev ifc l ls) hfuel
              refine sectionSpec_prepend (c := l :: c1) (by rw [List.cons_append, ← hc1]) ?_
                (ih _ _ _ hlen)
              intro x hx
              rcases List.mem_cons.mp hx with hx1 | hx2
              · subst hx1
                omega
              · have := hi1 x hx2
                omega
            · refine sectionSpec_prepend (c := [l]) (by simp) ?_ (ih _ _ _ hfuel)
              intro x hx
              simp only [List.mem_singleton] at hx
              subst hx
              omega
      · exact ⟨[], by simp, by simp, Or.inr ⟨l, ls, rfl, by omega⟩⟩

theorem parseInterfaceDescriptor_sectionSpec (dev : USBAudioDevice) (l : LsusbLine)
    (ls : List LsusbLine) : SectionSpec l.indent ls (parseInterfaceDescriptor dev (l :: ls)).2.2 :=
  parseInterfaceLoop_sectionSpec l.indent ls.length dev {} ls (Nat.le_refl _)

theorem parseConfigLoop_sectionSpec (i : Nat) (fuel : Nat) (dev : USBAudioDevice)
    (cfg : ConfigurationDescriptor) (ls : List LsusbLine) (hfuel : ls.length ≤ fuel) :
    SectionSpec i ls (parseConfigLoop i fuel dev cfg ls).2.2 := by
  induction fuel generalizing dev cfg ls with
  | zero =>
    have : ls = [] := List.length_eq_zero.mp (Nat.le_zero.mp hfuel)
    subst this
    exact ⟨[], by simp [parseConfigLoop], by simp, Or.inl (by simp [parseConfigLoop])⟩
  | succ fuel ih =>
    cases ls with
    | nil =>
      exact ⟨[], by simp [parseConfigLoop], by simp, Or.inl (by simp [parseConfigLoop])⟩
    | cons l ls =>
      simp only [List.length_cons, Nat.succ_le_succ_iff] at hfuel
      simp only [parseConfigLoop]
      split
      · split
        · obtain ⟨c1, hc1, hi1, _⟩ := parseInterfaceDescriptor_sectionSpec dev l ls
          have hlen : (parseInterfaceDescriptor dev (l :: ls)).2.2.length ≤ fuel :=
            le_trans (parseInterfaceDescriptor_rest_length dev l ls) hfuel
          refine sectionSpec_prepend (c := l :: c1) (by rw [List.cons_append, ← hc1]) ?_
            (ih _ _ _ hlen)
          intro x hx
          rcases List.mem_cons.mp hx with hx1 | hx2
          · subst hx1
            omega
          · have := hi1 x hx2
            omega
        · refine sectionSpec_prepend (c := [l]) (by simp) ?_ (ih _ _ _ hfuel)
          intro x hx
          simp only [List.mem_singleton] at hx
          subst hx
          omega
      · exact ⟨[], by simp, by simp, Or.inr ⟨l, ls, rfl, by omega⟩⟩

theorem parseConfigurationDescriptor_sectionSpec (dev : USBAudioDevice) (l : LsusbLine)
    (ls : List LsusbLine) :
    SectionSpec l.indent ls (parseConfigurationDescriptor dev (l :: ls)).2.2 :=
  parseConfigLoop_sectionSpec l.indent ls.length dev {} ls (Nat.le_refl _)

theorem parseDeviceLoop_sectionSpec (i : Nat) (fuel : Nat) (d : DeviceDescriptor)
    (ls : List LsusbLine) (d2 : DeviceDescriptor) (rest : List LsusbLine)
    (hfuel : ls.length ≤ fuel) (h : parseDeviceLoop i fuel d ls = Except.ok (d2, rest)) :
    SectionSpecDev i ls rest := by
  induction fuel generalizing d ls with
  | zero =>
    have : ls = [] := List.length_eq_zero.mp (Nat.le_zero.mp hfuel)
    subst this
    simp only [parseDeviceLoop, Except.ok.injEq, Prod.mk.injEq] at h
    exact ⟨[], by simp [← h.2], by simp, Or.inl (by simp [← h.2])⟩
  | succ fuel ih =>
    cases ls with
    | nil =>
      simp only [parseDeviceLoop, Except.ok.injEq, Prod.mk.injEq] at h
      exact ⟨[], by simp [← h.2], by simp, Or.inl (by simp [← h.2])⟩
    | cons l ls =>
      simp only [List.length_cons, Nat.succ_le_succ_iff] at hfuel
      simp only [parseDeviceLoop] at h
      split at h
      · split at h
        · simp only [Except.ok.injEq, Prod.mk.injEq] at h
          refine ⟨[], by simp [← h.2], by simp, Or.inr ⟨l, ls, by simp [← h.2], Or.inr ?_⟩⟩
          next _ hcfg => exact hcfg
        · cases hsd : stepDevice d l.content with
          | error e =>
            rw [hsd] at h
            exact absurd h (by simp [Except.bind])
          | ok d3 =>
            rw [hsd] at h
            simp only [Except.bind] at h
            obtain ⟨c, h1, h2, h3⟩ := ih _ _ hfuel h
            refine ⟨l :: c, by rw [List.cons_append, ← h1], ?_, h3⟩
            intro x hx
            rcases List.mem_cons.mp hx with hx1 | hx2
            · subst hx1
              omega
            · exact h2 x hx2
      · simp only [Except.ok.injEq, Prod.mk.injEq] at h
        exact ⟨[], by simp [← h.2], by simp, Or.inr ⟨l, ls, by simp [← h.2], Or.inl (by omega)⟩⟩

theorem parseDeviceDescriptor_sectionSpec (l : LsusbLine) (ls : List LsusbLine)
    (d : DeviceDescriptor) (rest : List LsusbLine)
    (h : parseDeviceDescriptor (l :: ls) = Except.ok (d, rest)) :
    SectionSpecDev l.indent ls rest :=
  parseDeviceLoop_sectionSpec l.indent ls.length {} ls d rest (Nat.le_refl _) h

/-! ### Helper lemmas for configuration retention and alternate-setting order -/

/-- The multi-configuration parse loop only appends to the retained list. -/
theorem parseMultiLoop_retains (fuel : Nat) (d : MultiConfigDevice) (ls : List LsusbLine)
    (d2 : MultiConfigDevice) (h : parseMultiLoop fuel d ls = Except.ok d2) :
    ∃ t, d2.configurations = d.configurations ++ t := by
  induction fuel generalizing d ls with
  | zero =>
    cases ls <;> simp only [parseMultiLoop, Except.ok.injEq] at h <;>
      exact ⟨[], by simp [← h]⟩
  | succ fuel ih =>
    cases ls with
    | nil =>
      simp only [parseMultiLoop, Except.ok.injEq] at h
      exact ⟨[], by simp [← h]⟩
    | cons l ls =>
      simp only [parseMultiLoop] at h
      split at h
      · exact ih _ _ h
      · split at h
        · cases hdd : parseDeviceDescriptor (l :: ls) with
          | error e =>
            rw [hdd] at h
            exact absurd h (by simp [Except.bind])
          | ok p =>
            rw [hdd] at h
            simp only [Except.bind] at h
            obtain ⟨t, ht⟩ := ih _ _ h
            exact ⟨t, ht⟩
        · split at h
          · obtain ⟨t, ht⟩ := ih _ _ h
            exact ⟨_, ht.trans (List.append_assoc _ _ _)⟩
          · exact ih _ _ h

/-- A requested version absent from the retained configurations makes
`select_configuration` fail and leaves the device untouched. -/
theorem selectConfiguration_absent (d : MultiConfigDevice) (v : UACVersion)
    (h : v ∉ availableUacVersions d) : selectConfiguration d v = (false, d) := by
  have hnone : d.configurations.findIdx? (fun c => c.uac_version == v) = none := by
    rw [List.findIdx?_eq_none_iff]
    intro c hc
    simp only [beq_eq_false_iff_ne, ne_eq]
    intro hv
    exact h (List.mem_map.mpr ⟨c, hc, hv⟩)
  simp [selectConfiguration, hnone]

/-- Both components of `altEntryFor` keep the (interface, alternate) key of
the streaming interface. -/
theorem altEntryFor_key (cfg : ConfigurationDescriptor) (s : AudioStreamingInterface) :
    (altEntryFor cfg s).1.key = s.key ∧ (altEntryFor cfg s).2.key = s.key := by
  simp only [altEntryFor]
  repeat' split
  all_goals simp [AlternateSetting.key, AudioStreamingInterface.key]

/-- With a stored configuration, the alternate-settings list and the updated
streaming list both carry exactly the original key sequence, in order. -/
theorem buildAlternateSettings_keys (dev : USBAudioDevice) (cfg : ConfigurationDescriptor)
    (hc : dev.configuration = some cfg) :
    (buildAlternateSettings dev).1.map AlternateSetting.key =
      dev.streaming_interfaces.map AudioStreamingInterface.key ∧
    (buildAlternateSettings dev).2.map AudioStreamingInterface.key =
      dev.streaming_interfaces.map AudioStreamingInterface.key := by
  simp only [buildAlternateSettings, hc]
  refine ⟨?_, ?_⟩ <;>
  · induction dev.streaming_interfaces with
    | nil => simp
    | cons s ss ih =>
      simp only [List.map_cons, List.cons.injEq]
      first
      | exact ⟨(altEntryFor_key cfg s).1, ih⟩
      | exact ⟨(altEntryFor_key cfg s).2, ih⟩

/-- The top-level loop never stores streaming interfaces without also having
stored a configuration. -/
theorem parseTopLoop_config_inv (fuel : Nat) (dev : USBAudioDevice) (ls : List LsusbLine)
    (dev2 : USBAudioDevice)
    (hinv : dev.configuration = none → dev.streaming_interfaces = [])
    (h : parseTopLoop fuel dev ls = Except.ok dev2) :
    dev2.configuration = none → dev2.streaming_interfaces = [] := by
  induction fuel generalizing dev ls with
  | zero =>
    cases ls <;> simp only [parseTopLoop, Except.ok.injEq] at h <;> rw [← h] <;> exact hinv
  | succ fuel ih =>
    cases ls with
    | nil =>
      simp only [parseTopLoop, Except.ok.injEq] at h
      rw [← h]
      exact hinv
    | cons l ls =>
      simp only [parseTopLoop] at h
      split at h
      · exact ih _ _ hinv h
      · split at h
        · cases hdd : parseDeviceDescriptor (l :: ls) with
          | error e =>
            rw [hdd] at h
            exact absurd h (by simp [Except.bind])
          | ok p =>
            rw [hdd] at h
            simp only [Except.bind] at h
            exact ih { dev with device := p.1 } _ (by exact hinv) h
        · split at h
          · exact ih _ _ (by intro hc; exact absurd hc (by simp)) h
          · exact ih _ _ hinv h

/-! ### Helper lemmas for the topology graph -/

/-- Membership agrees with lookup success. -/
theorem dictMem_iff_isSome (k : Nat) (d : List (Nat × TopologyNode)) :
    dictMem k d = (dictGet k d).isSome := rfl

/-- A successful lookup means the key occurs in the dict. -/
theorem dictGet_some_mem_keys (k : Nat) (d : List (Nat × TopologyNode)) (n : TopologyNode)
    (h : dictGet k d = some n) : k ∈ d.map (fun p => p.1) := by
  induction d with
  | nil => simp [dictGet] at h
  | cons p d ih =>
    simp only [dictGet] at h
    by_cases hk : p.1 = k
    · exact List.mem_cons.mpr (Or.inl hk.symm)
    · rw [if_neg hk] at h
      exact List.mem_cons_of_mem _ (ih h)

/-- Lookup after an in-place insert. -/
theorem dictGet_dictInsert (k k2 : Nat) (v : TopologyNode) (d : List (Nat × TopologyNode)) :
    dictGet k (dictInsert k2 v d) = if k2 = k then some v else dictGet k d := by
  induction d with
  | nil => simp [dictInsert, dictGet]
  | cons p d ih =>
    simp only [dictInsert]
    by_cases hp : p.1 = k2
    · rw [if_pos hp]
      by_cases hk : k2 = k
      · simp [dictGet, hk]
      · have hpk : ¬ p.1 = k := by rw [hp]; exact hk
        simp [dictGet, hk, hpk]
    · rw [if_neg hp]
      by_cases hpk : p.1 = k
      · have hk : ¬ k2 = k := by
          intro he
          exact hp (by rw [hpk, he])
        simp [dictGet, hpk, hk]
      · simp only [dictGet, if_neg hpk]
        exact ih

/-- Well-formedness of the node dict: the stored node carries its key as id. -/
def NodesWf (d : List (Nat × TopologyNode)) : Prop :=
  ∀ k n, dictGet k d = some n → n.id = k

theorem nodesWf_nil : NodesWf [] := by
  intro k n h
  simp [dictGet] at h

theorem nodesWf_insert {d : List (Nat × TopologyNode)} (hd : NodesWf d) (k : Nat)
    (v : TopologyNode) (hv : v.id = k) : NodesWf (dictInsert k v d) := by
  intro k2 n h
  rw [dictGet_dictInsert] at h
  by_cases hk : k = k2
  · rw [if_pos hk] at h
    cases h
    rw [hv, hk]
  · rw [if_neg hk] at h
    exact hd k2 n h

theorem nodesWf_addInputTerminals (ts : List InputTerminal) (g : TopologyGraph)
    (hg : NodesWf g.nodes) : NodesWf (addInputTerminals g ts).nodes := by
  induction ts generalizing g with
  | nil => exact hg
  | cons t ts ih =>
    simp only [addInputTerminals]
    split <;> exact ih _ (nodesWf_insert hg _ _ rfl)

theorem nodesWf_addOutputTerminals (ts : List OutputTerminal) (g : TopologyGraph)
    (hg : NodesWf g.nodes) : NodesWf (addOutputTerminals g ts).nodes := by
  induction ts generalizing g with
  | nil => exact hg
  | cons t ts ih =>
    simp only [addOutputTerminals]
    split <;> exact ih _ (nodesWf_insert hg _ _ rfl)

theorem nodesWf_addFeatureUnits (us : List FeatureUnit) (g : TopologyGraph)
    (hg : NodesWf g.nodes) : NodesWf (addFeatureUnits g us).nodes := by
  induction us generalizing g with
  | nil => exact hg
  | cons u us ih => exact ih _ (nodesWf_insert hg _ _ rfl)

theorem nodesWf_addMixerUnits (us : List MixerUnit) (g : TopologyGraph)
    (hg : NodesWf g.nodes) : NodesWf (addMixerUnits g us).nodes := by
  induction us generalizing g with
  | nil => exact hg
  | cons u us ih => exact ih _ (nodesWf_insert hg _ _ rfl)

theorem nodesWf_addSelectorUnits (us : List SelectorUnit) (g : TopologyGraph)
    (hg : NodesWf g.nodes) : NodesWf (addSelectorUnits g us).nodes := by
  induction us generalizing g with
  | nil => exact hg
  | cons u us ih => exact ih _ (nodesWf_insert hg _ _ rfl)

theorem nodesWf_addProcessingUnits (us : List ProcessingUnit) (g : TopologyGraph)
    (hg : NodesWf g.nodes) : NodesWf (addProcessingUnits g us).nodes := by
  induction us generalizing g with
  | nil => exact hg
  | cons u us ih => exact ih _ (nodesWf_insert hg _ _ rfl)

theorem nodesWf_addExtensionUnits (us : List ExtensionUnit) (g : TopologyGraph)
    (hg : NodesWf g.nodes) : NodesWf (addExtensionUnits g us).nodes := by
  induction us generalizing g with
  | nil => exact hg
  | cons u us ih => exact ih _ (nodesWf_insert hg _ _ rfl)

theorem nodesWf_addClockSources (cs : List ClockSource) (g : TopologyGraph)
    (hg : NodesWf g.nodes) : NodesWf (addClockSources g cs).nodes := by
  induction cs generalizing g with
  | nil => exact hg
  | cons c cs ih => exact ih _ (nodesWf_insert hg _ _ rfl)

theorem nodesWf_addClockSelectors (cs : List ClockSelector) (g : TopologyGraph)
    (hg : NodesWf g.nodes) : NodesWf (addClockSelectors g cs).nodes := by
  induction cs generalizing g with
  | nil => exact hg
  | cons c cs ih => exact ih _ (nodesWf_insert hg _ _ rfl)

theorem nodesWf_addClockMultipliers (cs : List ClockMultiplier) (g : TopologyGraph)
    (hg : NodesWf g.nodes) : NodesWf (addClockMultipliers g cs).nodes := by
  induction cs generalizing g with
  | nil => exact hg
  | cons c cs ih => exact ih _ (nodesWf_insert hg _ _ rfl)

/-- Every built graph has a well-formed node dict. -/
theorem buildTopology_nodesWf (dev : USBAudioDevice) : NodesWf (buildTopology dev).nodes := by
  cases hac : dev.audio_control with
  | none =>
    simp only [buildTopology, hac]
    exact nodesWf_nil
  | some ac =>
    simp only [buildTopology, hac]
    exact nodesWf_addClockMultipliers _ _ (nodesWf_addClockSelectors _ _
      (nodesWf_addClockSources _ _ (nodesWf_addExtensionUnits _ _
        (nodesWf_addProcessingUnits _ _ (nodesWf_addSelectorUnits _ _
          (nodesWf_addMixerUnits _ _ (nodesWf_addFeatureUnits _ _
            (nodesWf_addOutputTerminals _ _ (nodesWf_addInputTerminals _ _ nodesWf_nil)))))))))

/-- Looked-up nodes of a well-formed dict carry back exactly the ids that
have nodes, in order. -/
theorem filterMap_dictGet_ids (d : List (Nat × TopologyNode)) (wf : NodesWf d)
    (ids : List Nat) :
    (ids.filterMap (fun nid => dictGet nid d)).map (fun n => n.id) =
      ids.filter (fun nid => dictMem nid d) := by
  induction ids with
  | nil => simp
  | cons i ids ih =>
    cases hg : dictGet i d with
    | none =>
      have hm : dictMem i d = false := by
        rw [dictMem_iff_isSome, hg]
        rfl
      simp [List.filterMap_cons, List.filter_cons, hg, hm, ih]
    | some n =>
      have hm : dictMem i d = true := by
        rw [dictMem_iff_isSome, hg]
        rfl
      have hid : n.id = i := wf i n hg
      simp [List.filterMap_cons, List.filter_cons, hg, hm, ih, hid]

/-- A node already visited (in particular, already on the path under
construction) contributes no path. -/
theorem traceBack_visited (g : TopologyGraph) (fuel : Nat) (node_id : Nat)
    (path visited : List Nat) (h : node_id ∈ visited) :
    traceBack g fuel node_id path visited = [] := by
  cases fuel with
  | zero => rfl
  | succ fuel => simp [traceBack, h]

/-- Every id list produced by the tracer has pairwise-distinct entries,
given that the path so far is distinct and fully visited. -/
theorem traceBack_nodup (g : TopologyGraph) (fuel : Nat) (node_id : Nat)
    (path visited : List Nat) (hsub : ∀ x ∈ path, x ∈ visited) (hnd : path.Nodup) :
    ∀ p ∈ traceBack g fuel node_id path visited, p.Nodup := by
  induction fuel generalizing node_id path visited with
  | zero =>
    intro p hp
    simp [traceBack] at hp
  | succ fuel ih =>
    intro p hp
    simp only [traceBack] at hp
    split at hp
    · simp at hp
    · next hvis =>
      have hsub2 : ∀ x ∈ node_id :: path, x ∈ node_id :: visited := by
        intro x hx
        rcases List.mem_cons.mp hx with hx1 | hx2
        · exact List.mem_cons.mpr (Or.inl hx1)
        · exact List.mem_cons.mpr (Or.inr (hsub x hx2))
      have hnd2 : (node_id :: path).Nodup := by
        refine List.nodup_cons.mpr ⟨?_, hnd⟩
        intro hmem
        exact hvis (hsub node_id hmem)
      split at hp
      · simp at hp
      · split at hp
        · simp only [List.mem_singleton] at hp
          subst hp
          exact hnd2
        · split at hp
          · simp at hp
          · obtain ⟨s, _, hps⟩ := List.mem_flatMap.mp hp
            exact ih s.id (node_id :: path) (node_id :: visited) hsub2 hnd2 p hps

/-! ### Node-adding passes leave the edge list untouched -/

theorem addInputTerminals_edges (ts : List InputTerminal) (g : TopologyGraph) :
    (addInputTerminals g ts).edges = g.edges := by
  induction ts generalizing g with
  | nil => rfl
  | cons t ts ih =>
    simp only [addInputTerminals]
    split <;> rw [ih]

theorem addOutputTerminals_edges (ts : List OutputTerminal) (g : TopologyGraph) :
    (addOutputTerminals g ts).edges = g.edges := by
  induction ts generalizing g with
  | nil => rfl
  | cons t ts ih =>
    simp only [addOutputTerminals]
    split <;> rw [ih]

theorem addFeatureUnits_edges (us : List FeatureUnit) (g : TopologyGraph) :
    (addFeatureUnits g us).edges = g.edges := by
  induction us generalizing g with
  | nil => rfl
  | cons u us ih => rw [addFeatureUnits, ih]

theorem addMixerUnits_edges (us : List MixerUnit) (g : TopologyGraph) :
    (addMixerUnits g us).edges = g.edges := by
  induction us generalizing g with
  | nil => rfl
  | cons u us ih => rw [addMixerUnits, ih]

theorem addSelectorUnits_edges (us : List SelectorUnit) (g : TopologyGraph) :
    (addSelectorUnits g us).edges = g.edges := by
  induction us generalizing g with
  | nil => rfl
  | cons u us ih => rw [addSelectorUnits, ih]

theorem addProcessingUnits_edges (us : List ProcessingUnit) (g : TopologyGraph) :
    (addProcessingUnits g us).edges = g.edges := by
  induction us generalizing g with
  | nil => rfl
  | cons u us ih => rw [addProcessingUnits, ih]

theorem addExtensionUnits_edges (us : List ExtensionUnit) (g : TopologyGraph) :
    (addExtensionUnits g us).edges = g.edges := by
  induction us generalizing g with
  | nil => rfl
  | cons u us ih => rw [addExtensionUnits, ih]

theorem addClockSources_edges (cs : List ClockSource) (g : TopologyGraph) :
    (addClockSources g cs).edges = g.edges := by
  induction cs generalizing g with
  | nil => rfl
  | cons c cs ih => rw [addClockSources, ih]

theorem addClockSelectors_edges (cs : List ClockSelector) (g : TopologyGraph) :
    (addClockSelectors g cs).edges = g.edges := by
  induction cs generalizing g with
  | nil => rfl
  | cons c cs ih => rw [addClockSelectors, ih]

theorem addClockMultipliers_edges (cs : List ClockMultiplier) (g : TopologyGraph) :
    (addClockMultipliers g cs).edges = g.edges := by
  induction cs generalizing g with
  | nil => rfl
  | cons c cs ih => rw [addClockMultipliers, ih]

/-! ### Per-family edge properties -/

theorem outputTerminalEdges_mem (nodes : List (Nat × TopologyNode)) (ts : List OutputTerminal)
    (e : TopologyEdge) (h : e ∈ outputTerminalEdges nodes ts) :
    dictMem e.source_id nodes = true ∧ e.source_id ≠ 0 := by
  rw [outputTerminalEdges, List.mem_filterMap] at h
  obtain ⟨t, _, hf⟩ := h
  split at hf
  · next hgd =>
    cases hf
    rcases Bool.and_eq_true_iff.mp hgd with ⟨h1, h2⟩
    exact ⟨h2, by simpa using h1⟩
  · exact absurd hf (by simp)

theorem featureUnitEdges_mem (nodes : List (Nat × TopologyNode)) (us : List FeatureUnit)
    (e : TopologyEdge) (h : e ∈ featureUnitEdges nodes us) :
    dictMem e.source_id nodes = true ∧ e.source_id ≠ 0 := by
  rw [featureUnitEdges, List.mem_filterMap] at h
  obtain ⟨t, _, hf⟩ := h
  split at hf
  · next hgd =>
    cases hf
    rcases Bool.and_eq_true_iff.mp hgd with ⟨h1, h2⟩
    exact ⟨h2, by simpa using h1⟩
  · exact absurd hf (by simp)

theorem clockMultiplierEdges_mem (nodes : List (Nat × TopologyNode)) (cs : List ClockMultiplier)
    (e : TopologyEdge) (h : e ∈ clockMultiplierEdges nodes cs) :
    dictMem e.source_id nodes = true ∧ e.source_id ≠ 0 := by
  rw [clockMultiplierEdges, List.mem_filterMap] at h
  obtain ⟨t, _, hf⟩ := h
  split at hf
  · next hgd =>
    cases hf
    rcases Bool.and_eq_true_iff.mp hgd with ⟨h1, h2⟩
    exact ⟨h2, by simpa using h1⟩
  · exact absurd hf (by simp)

theorem mixerUnitEdges_mem (nodes : List (Nat × TopologyNode)) (us : List MixerUnit)
    (e : TopologyEdge) (h : e ∈ mixerUnitEdges nodes us) :
    dictMem e.source_id nodes = true := by
  rw [mixerUnitEdges, List.mem_flatMap] at h
  obtain ⟨u, _, hm⟩ := h
  rw [List.mem_filterMap] at hm
  obtain ⟨sid, _, hf⟩ := hm
  split at hf
  · next hgd =>
    cases hf
    exact hgd
  · exact absurd hf (by simp)

theorem selectorUnitEdges_mem (nodes : List (Nat × TopologyNode)) (us : List SelectorUnit)
    (e : TopologyEdge) (h : e ∈ selectorUnitEdges nodes us) :
    dictMem e.source_id nodes = true := by
  rw [selectorUnitEdges, List.mem_flatMap] at h
  obtain ⟨u, _, hm⟩ := h
  rw [List.mem_filterMap] at hm
  obtain ⟨sid, _, hf⟩ := hm
  split at hf
  · next hgd =>
    cases hf
    exact hgd
  · exact absurd hf (by simp)

theorem processingUnitEdges_mem (nodes : List (Nat × TopologyNode)) (us : List ProcessingUnit)
    (e : TopologyEdge) (h : e ∈ processingUnitEdges nodes us) :
    dictMem e.source_id nodes = true := by
  rw [processingUnitEdges, List.mem_flatMap] at h
  obtain ⟨u, _, hm⟩ := h
  rw [List.mem_filterMap] at hm
  obtain ⟨sid, _, hf⟩ := hm
  split at hf
  · next hgd =>
    cases hf
    exact hgd
  · exact absurd hf (by simp)

theorem extensionUnitEdges_mem (nodes : List (Nat × TopologyNode)) (us : List ExtensionUnit)
    (e : TopologyEdge) (h : e ∈ extensionUnitEdges nodes us) :
    dictMem e.source_id nodes = true := by
  rw [extensionUnitEdges, List.mem_flatMap] at h
  obtain ⟨u, _, hm⟩ := h
  rw [List.mem_filterMap] at hm
  obtain ⟨sid, _, hf⟩ := hm
  split at hf
  · next hgd =>
    cases hf
    exact hgd
  · exact absurd hf (by simp)

theorem clockSelectorEdges_mem (nodes : List (Nat × TopologyNode)) (cs : List ClockSelector)
    (e : TopologyEdge) (h : e ∈ clockSelectorEdges nodes cs) :
    dictMem e.source_id nodes = true := by
  rw [clockSelectorEdges, List.mem_flatMap] at h
  obtain ⟨c, _, hm⟩ := h
  rw [List.mem_filterMap] at hm
  obtain ⟨sid, _, hf⟩ := hm
  split at hf
  · next hgd =>
    cases hf
    exact hgd
  · exact absurd hf (by simp)

/-- Every edge of `buildEdges` is either pre-existing or has a source node. -/
theorem buildEdges_mem (g : TopologyGraph) (ac : AudioControlInterface) (e : TopologyEdge)
    (h : e ∈ (buildEdges g ac).edges) :
    e ∈ g.edges ∨ dictMem e.source_id g.nodes = true := by
  simp only [buildEdges, List.append_assoc, List.mem_append] at h
  rcases h with h | h | h | h | h | h | h | h | h
  · exact Or.inl h
  · exact Or.inr (outputTerminalEdges_mem _ _ _ h).1
  · exact Or.inr (featureUnitEdges_mem _ _ _ h).1
  · exact Or.inr (mixerUnitEdges_mem _ _ _ h)
  · exact Or.inr (selectorUnitEdges_mem _ _ _ h)
  · exact Or.inr (processingUnitEdges_mem _ _ _ h)
  · exact Or.inr (extensionUnitEdges_mem _ _ _ h)
  · exact Or.inr (clockSelectorEdges_mem _ _ _ h)
  · exact Or.inr (clockMultiplierEdges_mem _ _ _ h).1

/-! ### Fuel stabilization of the path tracer -/

theorem flatMapCongr {α β : Type} {l : List α} {f g : α → List β}
    (h : ∀ a ∈ l, f a = g a) : l.flatMap f = l.flatMap g := by
  induction l with
  | nil => rfl
  | cons a l ih =>
    simp only [List.flatMap_cons]
    rw [h a (List.mem_cons_self a l), ih (fun x hx => h x (List.mem_cons_of_mem a hx))]

/-- The node ids of a topology graph. -/
def keyIds (g : TopologyGraph) : List Nat := g.nodes.map (fun p => p.1)

/-- Number of graph node ids not yet visited: the bound on the remaining
recursion depth of the tracer. -/
def unvisitedBound (g : TopologyGraph) (visited : List Nat) : Nat :=
  ((keyIds g).toFinset \ visited.toFinset).card

theorem unvisitedBound_lt (g : TopologyGraph) (visited : List Nat) (id : Nat)
    (hmem : id ∈ keyIds g) (hnv : id ∉ visited) :
    unvisitedBound g (id :: visited) < unvisitedBound g visited := by
  have hset : (keyIds g).toFinset \ (id :: visited).toFinset =
      ((keyIds g).toFinset \ visited.toFinset).erase id := by
    ext x
    simp only [List.toFinset_cons, Finset.mem_sdiff, Finset.mem_insert, Finset.mem_erase]
    tauto
  have hin : id ∈ (keyIds g).toFinset \ visited.toFinset := by
    rw [Finset.mem_sdiff]
    exact ⟨List.mem_toFinset.mpr hmem, fun hc => hnv (List.mem_toFinset.mp hc)⟩
  rw [unvisitedBound, unvisitedBound, hset]
  exact Finset.card_erase_lt_of_mem hin

/-- With fuel beyond the unvisited-node bound, the tracer result does not
depend on the fuel: the recursion has terminated. -/
theorem traceBack_stable (g : TopologyGraph) (f1 f2 node_id : Nat)
    (path visited : List Nat) (h1 : unvisitedBound g visited < f1)
    (h2 : unvisitedBound g visited < f2) :
    traceBack g f1 node_id path visited = traceBack g f2 node_id path visited := by
  induction f1 generalizing f2 node_id path visited with
  | zero => omega
  | succ f1 ih =>
    cases f2 with
    | zero => omega
    | succ f2 =>
      simp only [traceBack]
      by_cases hv : node_id ∈ visited
      · simp [hv]
      · simp only [hv, if_false]
        cases hg : dictGet node_id g.nodes with
        | none => rfl
        | some n =>
          by_cases hit : n.node_type = NodeType.INPUT_TERMINAL
          · simp [hit]
          · simp only [hit, if_false]
            by_cases hs : (getSources g node_id).isEmpty
            · simp [hs]
            · simp only [hs, Bool.false_eq_true, if_false]
              have hlt := unvisitedBound_lt g visited node_id
                (dictGet_some_mem_keys _ _ _ hg) hv
              refine flatMapCongr ?_
              intro s _
              exact ih f2 s.id (node_id :: path) (node_id :: visited)
                (by omega) (by omega)

/-- Every signal path found on a well-formed node dict carries
pairwise-distinct node ids. -/
theorem findSignalPaths_nodup (g : TopologyGraph) (wf : NodesWf g.nodes)
    (p : SignalPath) (hp : p ∈ findSignalPaths g) :
    (p.nodes.map (fun n => n.id)).Nodup := by
  rw [findSignalPaths] at hp
  obtain ⟨ot, _, hp2⟩ := List.mem_flatMap.mp hp
  obtain ⟨ids, hids, hf⟩ := List.mem_filterMap.mp hp2
  have hnd : ids.Nodup :=
    traceBack_nodup g (g.nodes.length + 1) ot.id [] [] (by simp) List.nodup_nil ids hids
  dsimp only at hf
  split at hf
  · exact absurd hf (by simp)
  · cases hf
    simp only
    rw [filterMap_dictGet_ids g.nodes wf ids]
    exact hnd.filter _

/-! ### Concrete fixtures used by the claim theorems -/

/-- The audio-control interface of the concrete scenario of claim C4 (also
the UAC 1.0 headset shape of the test fixtures). -/
def acC4 : AudioControlInterface :=
  { input_terminals := [{ terminal_id := 1 }, { terminal_id := 2 }],
    output_terminals := [{ terminal_id := 6, source_id := 5 }, { terminal_id := 7, source_id := 4 }],
    feature_units := [{ unit_id := 4, source_id := 2 }, { unit_id := 5, source_id := 1 }] }

def devC4 : USBAudioDevice := { audio_control := some acC4 }

/-- Two feature units referencing each other as sources, feeding an output
terminal: the mutual-cycle scenario of claim C8. -/
def acCyc : AudioControlInterface :=
  { output_terminals := [{ terminal_id := 5, source_id := 3 }],
    feature_units := [{ unit_id := 3, source_id := 4 }, { unit_id := 4, source_id := 3 }] }

def devCyc : USBAudioDevice := { audio_control := some acCyc }

/-- A node with id 0 plus one zero-valued source reference of every kind:
the zero-guard scenario of claim C10. -/
def acZ : AudioControlInterface :=
  { input_terminals := [{ terminal_id := 0 }],
    output_terminals := [{ terminal_id := 20, source_id := 0 }],
    feature_units := [{ unit_id := 21, source_id := 0 }],
    mixer_units := [{ unit_id := 9, source_ids := [0] }],
    selector_units := [{ unit_id := 10, source_ids := [0] }],
    processing_units := [{ unit_id := 11, source_ids := [0] }],
    extension_units := [{ unit_id := 12, source_ids := [0] }],
    clock_selectors := [{ clock_id := 13, clock_pin_ids := [0] }],
    clock_multipliers := [{ clock_id := 22, clock_source_id := 0 }] }

def devZ : USBAudioDevice := { audio_control := some acZ }

/-- Input with two Configuration Descriptor sections of different UAC
versions (1.0 then 2.0). -/
def twoConfigText : String :=
  "Configuration Descriptor:\n Interface Descriptor:\n  AudioControl Interface Descriptor:\n   bDescriptorSubtype 1\n   bcdADC 1.00\nConfiguration Descriptor:\n Interface Descriptor:\n  AudioControl Interface Descriptor:\n   bDescriptorSubtype 1\n   bcdADC 2.00"

/-- Input whose streaming interfaces appear in decreasing interface-number
order (interface 2 before interface 1). -/
def c3Text : String :=
  "Configuration Descriptor:\n Interface Descriptor:\n  bInterfaceNumber 2\n  AudioStreaming Interface Descriptor:\n   bDescriptorSubtype 1\n Interface Descriptor:\n  bInterfaceNumber 1\n  AudioStreaming Interface Descriptor:\n   bDescriptorSubtype 1"

/-- The device parsed from `c3Text` (the parse succeeds). -/
def devC3 : USBAudioDevice := (parseLsusb c3Text).toOption.getD {}

/-- A one-configuration device used to exercise selection failure. -/
def mcDemo : MultiConfigDevice :=
  { configurations := [{ uac_version := UACVersion.UAC_1_0 }], active := some 0 }

/-- The first signal path of the claim-C4 scenario (input terminal 1,
feature unit 5, output terminal 6). -/
def pathC7 : SignalPath :=
  { nodes := [{ id := 1 },
              { id := 5, node_type := NodeType.FEATURE_UNIT },
              { id := 6, node_type := NodeType.OUTPUT_TERMINAL }] }

/-- Decidable equality for `Except` results (used to evaluate the embedded
parser on concrete inputs). -/
instance {e a : Type} [DecidableEq e] [DecidableEq a] : DecidableEq (Except e a) := fun x y =>
  match x, y with
  | Except.ok v, Except.ok w =>
    if h : v = w then isTrue (congrArg Except.ok h)
    else isFalse (fun hc => h (Except.ok.inj hc))
  | Except.error v, Except.error w =>
    if h : v = w then isTrue (congrArg Except.error h)
    else isFalse (fun hc => h (Except.error.inj hc))
  | Except.ok _, Except.error _ => isFalse (fun hc => Except.noConfusion hc)
  | Except.error _, Except.ok _ => isFalse (fun hc => Except.noConfusion hc)

/-! ### Claim theorems -/

/-- C1: the parsed device model retains every Configuration Descriptor
section encountered (the multi-configuration parse loop only ever appends to
the retained list, and on the concrete two-configuration input both sections
are retained with their own version tags), and the configuration-selection
operation returns failure and leaves the device, in particular the active
selection, unchanged whenever the requested UAC version is not among the
retained configurations. The multi-configuration model is modelled from the
spec (see the doc comment above `UACConfiguration`). -/
theorem C1_multiconfig_retention_and_selection :
    (∀ (fuel : Nat) (d : MultiConfigDevice) (ls : List LsusbLine) (d2 : MultiConfigDevice),
        parseMultiLoop fuel d ls = Except.ok d2 →
        ∃ t, d2.configurations = d.configurations ++ t)
    ∧ (∀ (d : MultiConfigDevice) (v : UACVersion),
        v ∉ availableUacVersions d → selectConfiguration d v = (false, d))
    ∧ ((parseMultiConfig twoConfigText).map
        (fun d => d.configurations.map (fun c => c.uac_version)) =
        Except.ok [UACVersion.UAC_1_0, UACVersion.UAC_2_0]) :=
  ⟨parseMultiLoop_retains, selectConfiguration_absent, by decide⟩

theorem C1_multiconfig_witness :
    selectConfiguration mcDemo UACVersion.UAC_3_0 = (false, mcDemo) ∧
    (∃ t, mcDemo.configurations = mcDemo.configurations ++ t) :=
  ⟨C1_multiconfig_retention_and_selection.2.1 mcDemo UACVersion.UAC_3_0 (by decide),
   C1_multiconfig_retention_and_selection.1 0 mcDemo [] mcDemo rfl⟩

/-- C2: the claim that `parse` terminates normally on every input is wrong
on the code: on a device-descriptor body containing a `bcdUSB` line with no
value text, `parser.py` line 204 evaluates `"".split()[0]` and raises
`IndexError`. The embedded parse returns the modelled raise on that input. -/
theorem C2_parse_raises_on_bare_bcdUSB :
    parseLsusb "Device Descriptor:\n bcdUSB" = Except.error () := by
  decide

/-- C3 (amended): the AlternateSetting list produced by a successful parse
carries exactly the (interface number, alternate setting) keys of the parsed
streaming interfaces, in parse order; consequently it is sorted by that key
whenever the streaming interfaces were encountered in sorted order. (The
builder does not sort, so the original claim fails on inputs whose
interfaces appear out of order; see the counterexample.) Every entry has
`Option`-valued format and endpoint fields, absent when no format or
endpoint was found. -/
theorem C3_alternate_settings_order (text : String) (dev : USBAudioDevice)
    (h : parseLsusb text = Except.ok dev) :
    dev.alternate_settings.map AlternateSetting.key =
      dev.streaming_interfaces.map AudioStreamingInterface.key ∧
    (keysSorted (dev.streaming_interfaces.map AudioStreamingInterface.key) = true →
      keysSorted (dev.alternate_settings.map AlternateSetting.key) = true) := by
  have hmain : dev.alternate_settings.map AlternateSetting.key =
      dev.streaming_interfaces.map AudioStreamingInterface.key := by
    rw [parseLsusb] at h
    cases ht : parseTopLoop (tokenize text).length {} (tokenize text) with
    | error e =>
      rw [ht] at h
      exact absurd h (by simp [Except.map])
    | ok dev0 =>
      rw [ht] at h
      simp only [Except.map, Except.ok.injEq] at h
      cases hc : dev0.configuration with
      | none =>
        have hse : dev0.streaming_interfaces = [] :=
          parseTopLoop_config_inv (tokenize text).length {} (tokenize text) dev0
            (fun _ => rfl) ht hc
        rw [← h]
        simp [buildAlternateSettings, hc, hse]
      | some cfg =>
        have hk := buildAlternateSettings_keys dev0 cfg hc
        rw [← h]
        simp only
        rw [hk.1, hk.2]
  exact ⟨hmain, fun hs => hmain ▸ hs⟩

theorem C3_alternate_settings_order_witness :
    devC3.alternate_settings.map AlternateSetting.key =
      devC3.streaming_interfaces.map AudioStreamingInterface.key :=
  (C3_alternate_settings_order c3Text devC3 (by decide)).1

/-- C3 counterexample: on `c3Text` the parse succeeds and yields the
alternate-settings key sequence [(2, 0), (1, 0)], which is not sorted by
(interface number, alternate setting): the claimed universal sortedness is
false on the code. -/
theorem C3_alternate_settings_not_sorted :
    (parseLsusb c3Text).map (fun d => d.alternate_settings.map AlternateSetting.key) =
      Except.ok [(2, 0), (1, 0)] ∧
    keysSorted [(2, 0), (1, 0)] = false := by
  constructor
  · decide
  · decide

/-- C4: on the concrete scenario (input terminals 1 and 2, output terminals
6 with source 5 and 7 with source 4, feature units 4 with source 2 and 5
with source 1) the built topology graph has exactly 6 nodes, exactly 4
edges, and exactly the two signal paths [1, 5, 6] and [2, 4, 7]. -/
theorem C4_concrete_scenario :
    (buildTopology devC4).nodes.length = 6 ∧
    (buildTopology devC4).edges.length = 4 ∧
    (buildTopology devC4).signal_paths.map (fun p => p.nodes.map (fun n => n.id)) =
      [[1, 5, 6], [2, 4, 7]] := by
  refine ⟨by decide, by decide, by decide⟩

/-- C5 (amended): every descriptor-section loop of the parser obeys the
indentation-boundary law `SectionSpec` — consumed body lines have indent
strictly greater than the section header's indent, and consumption stops at
end of input or at the first line with indent less than or equal to the
header's — with one exception: the device-descriptor section obeys only the
weaker `SectionSpecDev`, because its loop also breaks early at a nested
`Configuration Descriptor:` header line of arbitrary indent (see the
counterexample). -/
theorem C5_indentation_boundary :
    (∀ (α : Type) (i : Nat) (step : α → String → α) (a : α) (ls : List LsusbLine),
        SectionSpec i ls (parseFields i step a ls).2)
    ∧ (∀ (l : LsusbLine) (ls : List LsusbLine),
        SectionSpec l.indent ls (parseEndpointDescriptor (l :: ls)).2)
    ∧ (∀ (dev : USBAudioDevice) (l : LsusbLine) (ls : List LsusbLine),
        SectionSpec l.indent ls (parseAudioControlDescriptor dev (l :: ls)).2)
    ∧ (∀ (dev : USBAudioDevice) (ifc : InterfaceDescriptor) (l : LsusbLine)
        (ls : List LsusbLine),
        SectionSpec l.indent ls (parseAudioStreamingDescriptor dev ifc (l :: ls)).2)
    ∧ (∀ (dev : USBAudioDevice) (l : LsusbLine) (ls : List LsusbLine),
        SectionSpec l.indent ls (parseInterfaceDescriptor dev (l :: ls)).2.2)
    ∧ (∀ (dev : USBAudioDevice) (l : LsusbLine) (ls : List LsusbLine),
        SectionSpec l.indent ls (parseConfigurationDescriptor dev (l :: ls)).2.2)
    ∧ (∀ (l : LsusbLine) (ls : List LsusbLine) (d : DeviceDescriptor)
        (rest : List LsusbLine),
        parseDeviceDescriptor (l :: ls) = Except.ok (d, rest) →
        SectionSpecDev l.indent ls rest) :=
  ⟨fun _ i step a ls => parseFields_sectionSpec i step a ls,
   parseEndpointDescriptor_sectionSpec,
   parseAudioControlDescriptor_sectionSpec,
   parseAudioStreamingDescriptor_sectionSpec,
   parseInterfaceDescriptor_sectionSpec,
   parseConfigurationDescriptor_sectionSpec,
   parseDeviceDescriptor_sectionSpec⟩

theorem C5_indentation_boundary_witness :
    SectionSpec 0 [{ indent := 1, content := "bLength 7" }]
      (parseEndpointDescriptor
        [{ indent := 0, content := "Endpoint Descriptor:" },
         { indent := 1, content := "bLength 7" }]).2 ∧
    SectionSpecDev 0 [{ indent := 1, content := "Configuration Descriptor:" }]
      [{ indent := 1, content := "Configuration Descriptor:" }] :=
  ⟨C5_indentation_boundary.2.1 { indent := 0, content := "Endpoint Descriptor:" }
      [{ indent := 1, content := "bLength 7" }],
   C5_indentation_boundary.2.2.2.2.2.2 { indent := 0, content := "Device Descriptor:" }
      [{ indent := 1, content := "Configuration Descriptor:" }] {}
      [{ indent := 1, content := "Configuration Descriptor:" }] (by decide)⟩

/-- C5 counterexample: on a device-descriptor body whose next line is a
nested `Configuration Descriptor:` header with indent 1 (strictly greater
than the section header's indent 0), the device section stops without
consuming it: the stop line violates the claimed boundary law, which
requires stopping only at indent less than or equal to the header's. -/
theorem C5_device_section_breaks_early :
    parseDeviceDescriptor (tokenize "Device Descriptor:\n Configuration Descriptor:") =
      Except.ok ({}, [{ indent := 1, content := "Configuration Descriptor:" }]) ∧
    ¬ SectionSpec 0 [{ indent := 1, content := "Configuration Descriptor:" }]
        [{ indent := 1, content := "Configuration Descriptor:" }] := by
  refine ⟨by decide, ?_⟩
  rintro ⟨c, h1, _, h3⟩
  have hc : c = [] := by
    cases c with
    | nil => rfl
    | cons x xs =>
      have hl := congrArg List.length h1
      simp at hl
  subst hc
  rcases h3 with h3 | ⟨hh, ht, he, hi⟩
  · exact absurd h3 (by simp)
  · injection he with h4 h5
    rw [← h4] at hi
    exact absurd hi (by decide)

/-- C6: a `bcdADC` field of `2.00` decodes to packed value 0x0200 and tags
the header UAC 2.0; a field of `1.00` decodes to 0x0100 and tags UAC 1.0;
and the classification boundary is inclusive at 0x0200: every packed value
at least 0x0200 is tagged UAC 2.0, every smaller value UAC 1.0. -/
theorem C6_bcdadc_boundary :
    (∀ h : AudioControlHeader, stepAcHeader h "bcdADC 2.00" =
        { h with bcd_adc := 0x0200, uac_version := UACVersion.UAC_2_0 })
    ∧ (∀ h : AudioControlHeader, stepAcHeader h "bcdADC 1.00" =
        { h with bcd_adc := 0x0100, uac_version := UACVersion.UAC_1_0 })
    ∧ (∀ v : Nat, 0x0200 ≤ v → classifyBcdAdc v = UACVersion.UAC_2_0)
    ∧ (∀ v : Nat, v < 0x0200 → classifyBcdAdc v = UACVersion.UAC_1_0) :=
  ⟨fun h => rfl, fun h => rfl,
   fun v hv => by simp [classifyBcdAdc, hv],
   fun v hv => by simp [classifyBcdAdc, Nat.not_le.mpr hv]⟩

theorem C6_bcdadc_boundary_witness :
    classifyBcdAdc 0x0200 = UACVersion.UAC_2_0 ∧
    classifyBcdAdc 0x01FF = UACVersion.UAC_1_0 :=
  ⟨C6_bcdadc_boundary.2.2.1 0x0200 (by decide),
   C6_bcdadc_boundary.2.2.2 0x01FF (by decide)⟩

/-- C7: every signal path of a built topology graph has pairwise-distinct
node ids: the node-id sequence of any path in `signal_paths` has no
repeated entry. -/
theorem C7_signal_paths_nodup (dev : USBAudioDevice) (p : SignalPath)
    (hp : p ∈ (buildTopology dev).signal_paths) :
    (p.nodes.map (fun n => n.id)).Nodup := by
  have hw := buildTopology_nodesWf dev
  cases hac : dev.audio_control with
  | none =>
    simp only [buildTopology, hac] at hp
    exact absurd hp (List.not_mem_nil p)
  | some ac =>
    simp only [buildTopology, hac] at hp hw
    exact findSignalPaths_nodup _ hw p hp

theorem C7_signal_paths_nodup_witness :
    (pathC7.nodes.map (fun n => n.id)).Nodup :=
  C7_signal_paths_nodup devC4 pathC7 (by decide)

/-- C8: the backward tracer terminates on every graph, cycles included —
with fuel beyond the number of unvisited node ids the result no longer
depends on the fuel, so the recursion has ended; a node already visited (in
particular already on the path under construction) contributes no path; and
on the concrete mutually-referencing feature-unit cycle the built graph has
3 nodes, 3 edges and no signal path: no path traverses the cycle. -/
theorem C8_cycle_termination :
    (∀ (g : TopologyGraph) (f1 f2 node_id : Nat) (path visited : List Nat),
        unvisitedBound g visited < f1 → unvisitedBound g visited < f2 →
        traceBack g f1 node_id path visited = traceBack g f2 node_id path visited)
    ∧ (∀ (g : TopologyGraph) (fuel node_id : Nat) (path visited : List Nat),
        node_id ∈ visited → traceBack g fuel node_id path visited = [])
    ∧ (buildTopology devCyc).nodes.length = 3
    ∧ (buildTopology devCyc).edges.length = 3
    ∧ (buildTopology devCyc).signal_paths = [] :=
  ⟨traceBack_stable, traceBack_visited, by decide, by decide, by decide⟩

theorem C8_cycle_termination_witness :
    traceBack (buildTopology devCyc) 4 3 [] [] =
      traceBack (buildTopology devCyc) 5 3 [] [] ∧
    traceBack (buildTopology devCyc) 4 3 [] [3] = [] :=
  ⟨C8_cycle_termination.1 (buildTopology devCyc) 4 5 3 [] [] (by decide) (by decide),
   C8_cycle_termination.2.1 (buildTopology devCyc) 4 3 [] [3] (by decide)⟩

/-- C9: graph construction never fails on dangling references, and a
dangling source reference yields no edge: every edge of a built topology
graph has a source id with a node in the graph's node dict, so a reference
to an id with no node produced no edge. -/
theorem C9_dangling_reference_edges (dev : USBAudioDevice) (e : TopologyEdge)
    (h : e ∈ (buildTopology dev).edges) :
    dictMem e.source_id (buildTopology dev).nodes = true := by
  cases hac : dev.audio_control with
  | none =>
    simp only [buildTopology, hac] at h
    exact absurd h (List.not_mem_nil e)
  | some ac =>
    simp only [buildTopology, hac] at h ⊢
    rcases buildEdges_mem _ ac e h with h1 | h1
    · rw [addClockMultipliers_edges, addClockSelectors_edges, addClockSources_edges,
        addExtensionUnits_edges, addProcessingUnits_edges, addSelectorUnits_edges,
        addMixerUnits_edges, addFeatureUnits_edges, addOutputTerminals_edges,
        addInputTerminals_edges] at h1
      exact absurd h1 (List.not_mem_nil e)
    · exact h1

theorem C9_dangling_reference_edges_witness :
    dictMem 5 (buildTopology devC4).nodes = true :=
  C9_dangling_reference_edges devC4 { source_id := 5, target_id := 6 } (by decide)

/-- C10: the scalar source references (output-terminal `source_id`,
feature-unit `source_id`, clock-multiplier `clock_source_id`) are guarded
by Python truthiness, so an edge from those families never has source id 0;
the list-valued families have no such guard: on the concrete device whose
mixer, selector, processing, extension and clock-selector lists each hold
the entry 0 and whose graph has a node with id 0, exactly those five
zero-source edges are built, while the zero-valued scalar references of the
same device build none. -/
theorem C10_zero_source_guard :
    (∀ (nodes : List (Nat × TopologyNode)) (ts : List OutputTerminal) (e : TopologyEdge),
        e ∈ outputTerminalEdges nodes ts → e.source_id ≠ 0)
    ∧ (∀ (nodes : List (Nat × TopologyNode)) (us : List FeatureUnit) (e : TopologyEdge),
        e ∈ featureUnitEdges nodes us → e.source_id ≠ 0)
    ∧ (∀ (nodes : List (Nat × TopologyNode)) (cs : List ClockMultiplier) (e : TopologyEdge),
        e ∈ clockMultiplierEdges nodes cs → e.source_id ≠ 0)
    ∧ dictMem 0 (buildTopology devZ).nodes = true
    ∧ (buildTopology devZ).edges =
        [{ source_id := 0, target_id := 9 }, { source_id := 0, target_id := 10 },
         { source_id := 0, target_id := 11 }, { source_id := 0, target_id := 12 },
         { source_id := 0, target_id := 13, is_clock := true }] :=
  ⟨fun nodes ts e h => (outputTerminalEdges_mem nodes ts e h).2,
   fun nodes us e h => (featureUnitEdges_mem nodes us e h).2,
   fun nodes cs e h => (clockMultiplierEdges_mem nodes cs e h).2,
   by decide, by decide⟩

theorem C10_zero_source_guard_witness :
    ({ source_id := 5, target_id := 6 } : TopologyEdge).source_id ≠ 0 :=
  C10_zero_source_guard.1 (buildTopology devC4).nodes acC4.output_terminals
    { source_id := 5, target_id := 6 } (by decide)
